import Mathlib

/-!
Verification of the core calculation modules of the Horizon SPP retirement
simulator.  The JavaScript modules (`config/parametres.js`,
`modules/surcote.js`, `modules/pension.js` inside `nbi.js`,
`modules/nbi.js`, `modules/duree.js`, `modules/ages.js`) are embedded
shallowly: JS numbers become exact rationals, quarter counts stay
rationals or integers, JS `Date` values become explicit
year/month/day records, and `Math.round(x*100)/100` becomes an exact
floor-based rounding on rationals.  The date helpers of
`js/utils/dates.js` are not present in the source tree and are modelled
from the specification (section 4.2), as marked on each definition.
-/

namespace Horizon

/-- A calendar date with the JS `Date` components: `year`, 0-based
`month` and 1-based `day`.  Dates produced by the embedded code keep the
month normalised into `0..11`. -/
structure SimDate where
  year : Int
  month : Int
  day : Int
deriving DecidableEq, Repr

/-- Linear key: for normalised dates (`month` in `0..11`, `day` in
`1..31`) ordering by `key` coincides with chronological ordering of the
underlying JS `Date` timestamps. -/
def SimDate.key (d : SimDate) : Int :=
  (d.year * 12 + d.month) * 32 + d.day

instance : LE SimDate := ⟨fun a b => a.key ≤ b.key⟩

instance : LT SimDate := ⟨fun a b => a.key < b.key⟩

instance (a b : SimDate) : Decidable (a ≤ b) :=
  inferInstanceAs (Decidable (a.key ≤ b.key))

instance (a b : SimDate) : Decidable (a < b) :=
  inferInstanceAs (Decidable (a.key < b.key))

/-- The month and day components lie in the JS-normalised ranges. -/
def SimDate.Valid (d : SimDate) : Prop :=
  0 ≤ d.month ∧ d.month ≤ 11 ∧ 1 ≤ d.day ∧ d.day ≤ 31

instance (d : SimDate) : Decidable d.Valid := by
  unfold SimDate.Valid; infer_instance

/-- JS `setFullYear` / `setMonth` arithmetic: add `n` months and
normalise the month into `0..11`.  The day component is unchanged (the
embedded computations only move whole months from day-1 or day-28 dates,
so no end-of-month overflow arises). -/
def addMonths (d : SimDate) (n : Int) : SimDate :=
  ⟨(d.year * 12 + d.month + n) / 12, (d.year * 12 + d.month + n) % 12, d.day⟩

theorem addMonths_key (d : SimDate) (n : Int) :
    (addMonths d n).key = d.key + 32 * n := by
  simp only [addMonths, SimDate.key]
  omega

theorem addMonths_valid (d : SimDate) (n : Int) (h : d.Valid) :
    (addMonths d n).Valid := by
  obtain ⟨h1, h2, h3, h4⟩ := h
  refine ⟨?_, ?_, h3, h4⟩ <;> simp only [addMonths] <;> omega

/-- Modelled from the spec: `js/utils/dates.js` is absent from the
source tree.  Spec section 4.2: `monthsBetween` subtracts a
day-of-month-aware month count and never returns a negative value. -/
def monthsBetween (a b : SimDate) : Int :=
  max 0 ((b.year - a.year) * 12 + (b.month - a.month) -
    (if b.day < a.day then 1 else 0))

/-- Modelled from the spec (absent `js/utils/dates.js`), source name
`calculerTrimestresEntreDates`: `quartersBetween(start, end) =
floor(monthsBetween(start, end) / 3)`, and `0` when `end <= start`. -/
def calculerTrimestresEntreDates (a b : SimDate) : Int :=
  monthsBetween a b / 3

/-- Modelled from the spec (absent `js/utils/dates.js`), source name
`calculerAge`: `age(birthDate, atDate) -> integer years` by exact
year/month/day comparison. -/
def calculerAge (naissance dateRef : SimDate) : Int :=
  (dateRef.year - naissance.year) -
    (if dateRef.month < naissance.month ∨
        (dateRef.month = naissance.month ∧ dateRef.day < naissance.day)
     then 1 else 0)

/-- Modelled from the spec (absent `js/utils/dates.js`), source name
`dateAtteindreAge`: `addYearsMonths(date, years, 0)`. -/
def dateAtteindreAge (naissance : SimDate) (ans : Int) : SimDate :=
  addMonths naissance (12 * ans)

theorem monthsBetween_nonneg (a b : SimDate) : 0 ≤ monthsBetween a b :=
  le_max_left 0 _

theorem calculerTrimestresEntreDates_nonneg (a b : SimDate) :
    0 ≤ calculerTrimestresEntreDates a b :=
  Int.ediv_nonneg (monthsBetween_nonneg a b) (by norm_num)

theorem monthsBetween_eq_zero (a b : SimDate) (ha : a.Valid) (hb : b.Valid)
    (h : b.key ≤ a.key) : monthsBetween a b = 0 := by
  obtain ⟨ha1, ha2, ha3, ha4⟩ := ha
  obtain ⟨hb1, hb2, hb3, hb4⟩ := hb
  simp only [SimDate.key] at h
  simp only [monthsBetween]
  omega

/-- Kernel-computable floor on rationals (equal to `Int.floor`, see
`ratFloor_eq_floor`). -/
def ratFloor (q : ℚ) : Int := q.num / (q.den : Int)

theorem ratFloor_eq_floor (q : ℚ) : ratFloor q = ⌊q⌋ :=
  Rat.floor_def.symm

/-- Concrete evaluation rule for `ratFloor`. -/
theorem ratFloor_eval {q : ℚ} (n : Int) (h1 : (n : ℚ) ≤ q) (h2 : q < n + 1) :
    ratFloor q = n := by
  rw [ratFloor_eq_floor]
  exact Int.floor_eq_iff.mpr ⟨h1, by exact_mod_cast h2⟩

/-- JS `Math.round(x * 100) / 100` over exact rationals
(`Math.round` is floor of `x + 1/2`). -/
def round2 (q : ℚ) : ℚ := (ratFloor (q * 100 + 1/2) : ℚ) / 100

/-- JS `Math.round(x * 10000) / 10000` over exact rationals. -/
def round4 (q : ℚ) : ℚ := (ratFloor (q * 10000 + 1/2) : ℚ) / 10000

/-- Concrete evaluation rule for `round2`. -/
theorem round2_eval {q : ℚ} (n : Int) (h1 : (n : ℚ) ≤ q * 100 + 1/2)
    (h2 : q * 100 + 1/2 < n + 1) : round2 q = (n : ℚ) / 100 := by
  unfold round2
  rw [ratFloor_eval n h1 h2]

/-- Concrete evaluation rule for `round4`. -/
theorem round4_eval {q : ℚ} (n : Int) (h1 : (n : ℚ) ≤ q * 10000 + 1/2)
    (h2 : q * 10000 + 1/2 < n + 1) : round4 q = (n : ℚ) / 10000 := by
  unfold round4
  rw [ratFloor_eval n h1 h2]

theorem round2_nonneg (q : ℚ) (h : 0 ≤ q) : 0 ≤ round2 q := by
  have : (0 : Int) ≤ ratFloor (q * 100 + 1/2) := by
    rw [ratFloor_eq_floor]
    exact Int.le_floor.mpr (by push_cast; linarith)
  unfold round2
  positivity

theorem round4_ge_one (q : ℚ) (h : 1 ≤ q) : 1 ≤ round4 q := by
  have h1 : (10000 : Int) ≤ ratFloor (q * 10000 + 1/2) := by
    rw [ratFloor_eq_floor]
    exact Int.le_floor.mpr (by push_cast; linarith)
  have h2 : (10000 : ℚ) ≤ (ratFloor (q * 10000 + 1/2) : ℚ) := by exact_mod_cast h1
  unfold round4
  rw [le_div_iff₀ (show (0 : ℚ) < 10000 by norm_num)]
  linarith

/-! ## Regulatory parameters (`config/parametres.js`) -/

/-- One row of a birth-cohort legal-age table. -/
structure Tranche where
  debut : Option SimDate
  fin : Option SimDate
  age : Int
  mois : Int

/-- Result of a legal-age lookup (`{ans, mois, totalMois}`). -/
structure AgeLegal where
  ans : Int
  mois : Int
  totalMois : Int
deriving DecidableEq, Repr

/-- `AGE_LEGAL_ACTIF` table (2023 reform, active category). -/
def AGE_LEGAL_ACTIF : List Tranche := [
  ⟨none, some ⟨1966, 7, 31⟩, 57, 0⟩,
  ⟨some ⟨1966, 8, 1⟩, some ⟨1966, 11, 31⟩, 57, 3⟩,
  ⟨some ⟨1967, 0, 1⟩, some ⟨1967, 11, 31⟩, 57, 6⟩,
  ⟨some ⟨1968, 0, 1⟩, some ⟨1968, 11, 31⟩, 57, 9⟩,
  ⟨some ⟨1969, 0, 1⟩, some ⟨1969, 11, 31⟩, 58, 0⟩,
  ⟨some ⟨1970, 0, 1⟩, some ⟨1970, 11, 31⟩, 58, 3⟩,
  ⟨some ⟨1971, 0, 1⟩, some ⟨1971, 11, 31⟩, 58, 6⟩,
  ⟨some ⟨1972, 0, 1⟩, some ⟨1972, 11, 31⟩, 58, 9⟩,
  ⟨some ⟨1973, 0, 1⟩, none, 59, 0⟩]

/-- `AGE_LEGAL_SEDENTAIRE` table (2023 reform, sedentary category,
used for the surcote gate and the decote-cancellation date). -/
def AGE_LEGAL_SEDENTAIRE : List Tranche := [
  ⟨none, some ⟨1961, 7, 31⟩, 62, 0⟩,
  ⟨some ⟨1961, 8, 1⟩, some ⟨1961, 11, 31⟩, 62, 3⟩,
  ⟨some ⟨1962, 0, 1⟩, some ⟨1962, 11, 31⟩, 62, 6⟩,
  ⟨some ⟨1963, 0, 1⟩, some ⟨1963, 11, 31⟩, 62, 9⟩,
  ⟨some ⟨1964, 0, 1⟩, some ⟨1964, 11, 31⟩, 63, 0⟩,
  ⟨some ⟨1965, 0, 1⟩, some ⟨1965, 11, 31⟩, 63, 3⟩,
  ⟨some ⟨1966, 0, 1⟩, some ⟨1966, 11, 31⟩, 63, 6⟩,
  ⟨some ⟨1967, 0, 1⟩, some ⟨1967, 11, 31⟩, 63, 9⟩,
  ⟨some ⟨1968, 0, 1⟩, none, 64, 0⟩]

/-- The linear search shared by `getAgeLegalActif` and
`getAgeLegalSedentaire`: a `null` range bound becomes `1900-01-01`
respectively `2100-12-31`. -/
def chercherTranche : List Tranche → SimDate → Option AgeLegal
  | [], _ => none
  | t :: reste, dn =>
    let debut := t.debut.getD ⟨1900, 0, 1⟩
    let fin := t.fin.getD ⟨2100, 11, 31⟩
    if debut ≤ dn ∧ dn ≤ fin then some ⟨t.age, t.mois, t.age * 12 + t.mois⟩
    else chercherTranche reste dn

/-- `getAgeLegalActif` with its `{ans: 59, mois: 0}` fallback. -/
def getAgeLegalActif (dn : SimDate) : AgeLegal :=
  (chercherTranche AGE_LEGAL_ACTIF dn).getD ⟨59, 0, 708⟩

/-- `getAgeLegalSedentaire` with its `{ans: 64, mois: 0}` fallback. -/
def getAgeLegalSedentaire (dn : SimDate) : AgeLegal :=
  (chercherTranche AGE_LEGAL_SEDENTAIRE dn).getD ⟨64, 0, 768⟩

/-- `getDureeAssuranceRequise`: required quarters by birth year, with the
`DUREE_ASSURANCE_DEFAUT = 172` fallback. -/
def getDureeAssuranceRequise (anneeNaissance : Int) : ℚ :=
  if anneeNaissance = 1960 then 167
  else if anneeNaissance = 1961 then 168
  else if anneeNaissance = 1962 then 169
  else if anneeNaissance = 1963 then 170
  else if anneeNaissance = 1964 then 171
  else 172

/-- `POINT_INDICE.VALEUR_MENSUELLE` (January 2026). -/
def VALEUR_MENSUELLE : ℚ := 492278 / 100000

/-- `POINT_INDICE.VALEUR_ANNUELLE = VALEUR_MENSUELLE * 12`. -/
def VALEUR_ANNUELLE : ℚ := VALEUR_MENSUELLE * 12

/-- `TAUX.PLEIN`. -/
def TAUX_PLEIN : ℚ := 75

/-- `TAUX.DECOTE_PAR_TRIMESTRE` (1.25). -/
def DECOTE_PAR_TRIMESTRE : ℚ := 5 / 4

/-- `TAUX.SURCOTE_PAR_TRIMESTRE` (1.25). -/
def SURCOTE_PAR_TRIMESTRE : ℚ := 5 / 4

/-- `PFR.TAUX_PRIME_FEU` (percent). -/
def TAUX_PRIME_FEU : ℚ := 25

/-- `MINIMUM_GARANTI.MONTANT_MENSUEL_2026`. -/
def MONTANT_MENSUEL_2026 : ℚ := 136751 / 100

/-- `COTISATIONS.CSG` (percent). -/
def TAUX_CSG : ℚ := 83 / 10

/-- `COTISATIONS.CRDS` (percent). -/
def TAUX_CRDS : ℚ := 1 / 2

/-- `COTISATIONS.CASA` (percent). -/
def TAUX_CASA : ℚ := 3 / 10

/-- `AGES.ANNULATION_DECOTE` (fixed default, not cohort-dependent). -/
def AGE_ANNULATION_DECOTE : Int := 62

/-- `AGES.LIMITE_ACTIVITE`. -/
def AGE_LIMITE_ACTIVITE : Int := 62

/-! ## Surcote module (`modules/surcote.js`) -/

/-- `DonneesSurcote` input record. -/
structure DonneesSurcote where
  dateNaissance : SimDate
  dateDepart : SimDate
  trimestresAssurance : ℚ
  trimestresRequis : ℚ
  dateTauxPlein : SimDate

/-- Result of `verifierEligibiliteSurcote` (motif strings abbreviated,
the source interpolates the numbers into the message). -/
structure EligibiliteSurcote where
  eligible : Bool
  motif : String
deriving DecidableEq, Repr

/-- `verifierEligibiliteSurcote`: integer age at departure measured
against the `ans` component of the sedentary legal age, then the
insured-duration test. -/
def verifierEligibiliteSurcote (dateNaissance dateDepart : SimDate)
    (trimestresAssurance trimestresRequis : ℚ) : EligibiliteSurcote :=
  let ageDepart := calculerAge dateNaissance dateDepart
  let ageSedentaire := getAgeLegalSedentaire dateNaissance
  if ageDepart < ageSedentaire.ans then
    ⟨false, "Age insuffisant pour la surcote"⟩
  else if trimestresAssurance < trimestresRequis then
    ⟨false, "Duree d assurance insuffisante"⟩
  else
    ⟨true, ""⟩

/-- `calculerDateDebutSurcote`: later of the full-rate date and the
sedentary-legal-age date (`setFullYear` then, when the month offset is
truthy, `setMonth`). -/
def calculerDateDebutSurcote (dateNaissance dateTauxPlein : SimDate) : SimDate :=
  let ageSedentaire := getAgeLegalSedentaire dateNaissance
  let d1 := addMonths dateNaissance (12 * ageSedentaire.ans)
  let dateAgeSedentaire :=
    if ageSedentaire.mois ≠ 0 then addMonths d1 ageSedentaire.mois else d1
  if dateAgeSedentaire < dateTauxPlein then dateTauxPlein else dateAgeSedentaire

/-- `calculerTrimestresSurcote`. -/
def calculerTrimestresSurcote (dateDebutSurcote dateDepart : SimDate) : Int :=
  if dateDepart ≤ dateDebutSurcote then 0
  else calculerTrimestresEntreDates dateDebutSurcote dateDepart

/-- `calculerTauxSurcote`: 1.25 percent per quarter, no cap. -/
def calculerTauxSurcote (trimestresSurcote : ℚ) : ℚ :=
  if trimestresSurcote ≤ 0 then 0
  else trimestresSurcote * SURCOTE_PAR_TRIMESTRE

/-- `calculerCoefficientSurcote`. -/
def calculerCoefficientSurcote (tauxSurcote : ℚ) : ℚ :=
  1 + tauxSurcote / 100

/-- `ResultatSurcote` (motif abbreviated as above). -/
structure ResultatSurcote where
  eligible : Bool
  trimestresSurcote : Int
  tauxSurcote : ℚ
  coefficientMajoration : ℚ
  motifIneligibilite : String
deriving DecidableEq, Repr

/-- `calculerSurcote`: the complete surcote computation. -/
def calculerSurcote (donnees : DonneesSurcote) : ResultatSurcote :=
  let e := verifierEligibiliteSurcote donnees.dateNaissance donnees.dateDepart
    donnees.trimestresAssurance donnees.trimestresRequis
  if e.eligible then
    let dateDebutSurcote :=
      calculerDateDebutSurcote donnees.dateNaissance donnees.dateTauxPlein
    let trimestresSurcote :=
      calculerTrimestresSurcote dateDebutSurcote donnees.dateDepart
    let tauxSurcote := calculerTauxSurcote (trimestresSurcote : ℚ)
    let coefficientMajoration := calculerCoefficientSurcote tauxSurcote
    ⟨true, trimestresSurcote, round2 tauxSurcote,
      round4 coefficientMajoration, ""⟩
  else
    ⟨false, 0, 0, 1, e.motif⟩

/-- `appliquerSurcote`: multiplicative application, rounded to the cent. -/
def appliquerSurcote (pensionBrute coefficientSurcote : ℚ) : ℚ :=
  round2 (pensionBrute * coefficientSurcote)

/-! ## Dates from ages module (`modules/ages.js`) -/

/-- `dateAtteindreAgeAvecMois`: `setFullYear(+annees)` then
`setMonth(+mois)`. -/
def dateAtteindreAgeAvecMois (naissance : SimDate) (annees mois : Int) : SimDate :=
  addMonths (addMonths naissance (12 * annees)) mois

/-- `calculerDateOuvertureDroits` (cohort-dependent active legal age). -/
def calculerDateOuvertureDroits (dateNaissance : SimDate) : SimDate :=
  dateAtteindreAgeAvecMois dateNaissance (getAgeLegalActif dateNaissance).ans
    (getAgeLegalActif dateNaissance).mois

/-- `calculerDateAnnulationDecote` (cohort-dependent sedentary legal
age). -/
def calculerDateAnnulationDecote (dateNaissance : SimDate) : SimDate :=
  dateAtteindreAgeAvecMois dateNaissance (getAgeLegalSedentaire dateNaissance).ans
    (getAgeLegalSedentaire dateNaissance).mois

/-- `calculerDateLimite` (fixed 62-year activity limit). -/
def calculerDateLimite (dateNaissance : SimDate) : SimDate :=
  dateAtteindreAge dateNaissance AGE_LIMITE_ACTIVITE

/-- `calculerTrimestresDecote` (`modules/ages.js`): the fast exit
compares the integer age with the fixed `AGES.ANNULATION_DECOTE`
constant, while the age-shortfall quarters are measured against the
cohort-dependent sedentary cancellation date. -/
def calculerTrimestresDecote (dateNaissance dateDepart : SimDate)
    (trimestresAssurance trimestresRequis : ℚ) : ℚ :=
  if AGE_ANNULATION_DECOTE ≤ calculerAge dateNaissance dateDepart then 0
  else
    min (min (max 0 (trimestresRequis - trimestresAssurance))
      ((calculerTrimestresEntreDates dateDepart
        (calculerDateAnnulationDecote dateNaissance) : ℚ))) 20

/-! ## Pension module (the prime-de-feu variant of
`modules/pension.js`, concatenated inside `nbi.js`) -/

/-- Result of `calculerTraitementIndiciaire`. -/
structure Traitement where
  annuel : ℚ
  mensuel : ℚ
  nbiIntegre : Bool
  pointsNBI : ℚ
deriving DecidableEq, Repr

/-- `calculerTraitementIndiciaire` with the optional NBI integration
(`pointsNBIIntegres` defaults to 0 at the source call sites). -/
def calculerTraitementIndiciaire (indiceBrut pointsNBIIntegres : ℚ) : Traitement :=
  ⟨round2 (indiceBrut * VALEUR_ANNUELLE + pointsNBIIntegres * VALEUR_ANNUELLE),
   round2 ((indiceBrut * VALEUR_ANNUELLE + pointsNBIIntegres * VALEUR_ANNUELLE) / 12),
   if 0 < pointsNBIIntegres then true else false,
   pointsNBIIntegres⟩

/-- `calculerTauxLiquidationBrut`: division-by-zero guard mirrored as
`!trimestresRequis || trimestresRequis <= 0`. -/
def calculerTauxLiquidationBrut (trimestresLiquidables trimestresRequis : ℚ) : ℚ :=
  if trimestresRequis = 0 ∨ trimestresRequis ≤ 0 then 0
  else min (trimestresLiquidables / trimestresRequis * TAUX_PLEIN) TAUX_PLEIN

/-- `calculerCoefficientDecote`. -/
def calculerCoefficientDecote (trimestresDecote : ℚ) : ℚ :=
  if trimestresDecote ≤ 0 then 1
  else max (1 - trimestresDecote * (DECOTE_PAR_TRIMESTRE / 100)) (3/4)

/-- `calculerTauxLiquidationNet`. -/
def calculerTauxLiquidationNet (tauxBrut coefficientDecote : ℚ) : ℚ :=
  tauxBrut * coefficientDecote

/-- Result of `calculerPensionBrute`. -/
structure PensionBrute where
  annuel : ℚ
  mensuel : ℚ
deriving DecidableEq, Repr

/-- `calculerPensionBrute`. -/
def calculerPensionBrute (traitementIndiciaire tauxLiquidation : ℚ) : PensionBrute :=
  ⟨round2 (traitementIndiciaire * (tauxLiquidation / 100)),
   round2 (traitementIndiciaire * (tauxLiquidation / 100) / 12)⟩

/-- JS truthiness of a possibly-undefined numeric value. -/
def optTruthy : Option ℚ → Bool
  | none => false
  | some q => if q = 0 then false else true

/-- JS `x || 0` over a possibly-undefined numeric value. -/
def optVal : Option ℚ → ℚ
  | none => 0
  | some q => q

/-- JS `x || d` over a possibly-undefined numeric value. -/
def jsOr (o : Option ℚ) (d : ℚ) : ℚ :=
  match o with
  | none => d
  | some q => if q = 0 then d else q

/-- Result of `calculerMajorationPrimeFeu`. -/
structure MajorationPrimeFeu where
  annuelle : ℚ
  mensuelle : ℚ
  proratisee : Bool
  tauxProratisation : ℚ
deriving DecidableEq, Repr

/-- `calculerMajorationPrimeFeu` with its seven parameters
(`trimestresSPP` and `trimestresTotal` may be undefined at the source
call sites, `trimestresBonificationSPP` defaults to 0 and
`trimestresRequis` to 172 there). -/
def calculerMajorationPrimeFeu (traitementIndiciaireAnnuel tauxLiquidation : ℚ)
    (droitMajoration : Bool) (trimestresSPP : Option ℚ)
    (trimestresBonificationSPP : ℚ) (trimestresTotal : Option ℚ)
    (trimestresRequis : ℚ) : MajorationPrimeFeu :=
  if droitMajoration then
    let majorationBase := traitementIndiciaireAnnuel * (TAUX_PRIME_FEU / 100)
    if ¬ trimestresRequis ≤ optVal trimestresSPP + trimestresBonificationSPP ∧
        optTruthy trimestresSPP = true ∧ optTruthy trimestresTotal = true ∧
        optVal trimestresSPP < optVal trimestresTotal then
      let tauxProratisation := optVal trimestresSPP / optVal trimestresTotal * 100
      ⟨round2 (majorationBase * (tauxProratisation / 100) * (tauxLiquidation / 100)),
       round2 (majorationBase * (tauxProratisation / 100) * (tauxLiquidation / 100) / 12),
       true, round2 tauxProratisation⟩
    else
      ⟨round2 (majorationBase * (tauxLiquidation / 100)),
       round2 (majorationBase * (tauxLiquidation / 100) / 12),
       false, round2 100⟩
  else
    ⟨0, 0, false, 0⟩

/-- `calculerMinimumGaranti` over exact rationals (in this embedding a
division by zero yields 0; the JS special-value behaviour of the same
source function is modelled by `calculerMinimumGarantiJS` below). -/
def calculerMinimumGaranti (trimestresLiquidables trimestresRequis : ℚ) : ℚ :=
  round2 (MONTANT_MENSUEL_2026 * min (trimestresLiquidables / trimestresRequis) 1)

/-- Result of `calculerCotisationsPension` (detail flattened). -/
structure Cotisations where
  total : ℚ
  csg : ℚ
  crds : ℚ
  casa : ℚ
deriving DecidableEq, Repr

/-- `calculerCotisationsPension`. -/
def calculerCotisationsPension (pensionBruteMensuelle : ℚ) : Cotisations :=
  ⟨round2 (pensionBruteMensuelle * (TAUX_CSG / 100) +
      pensionBruteMensuelle * (TAUX_CRDS / 100) +
      pensionBruteMensuelle * (TAUX_CASA / 100)),
   round2 (pensionBruteMensuelle * (TAUX_CSG / 100)),
   round2 (pensionBruteMensuelle * (TAUX_CRDS / 100)),
   round2 (pensionBruteMensuelle * (TAUX_CASA / 100))⟩

/-- `calculerPensionNette`. -/
def calculerPensionNette (pensionBruteMensuelle : ℚ) : ℚ :=
  round2 (pensionBruteMensuelle - (calculerCotisationsPension pensionBruteMensuelle).total)

/-- `DonneesPension` input record of the prime-de-feu variant. -/
structure DonneesPension where
  indiceBrut : ℚ
  trimestresLiquidables : ℚ
  trimestresAssurance : ℚ
  trimestresRequis : ℚ
  dateNaissance : SimDate
  dateDepart : SimDate
  pointsNBIIntegres : ℚ
  droitMajorationPrimeFeu : Bool
  trimestresSPP : Option ℚ
  trimestresTotal : Option ℚ

/-- `ResultatPension` of the prime-de-feu variant. -/
structure ResultatPension where
  traitementIndiciaireAnnuel : ℚ
  traitementIndicaireMensuel : ℚ
  tauxLiquidationBrut : ℚ
  coefficientDecote : ℚ
  trimestresDecote : ℚ
  tauxLiquidationNet : ℚ
  pensionBaseMensuelle : ℚ
  pensionBaseAnnuelle : ℚ
  majorationPrimeFeu : MajorationPrimeFeu
  pensionBruteAnnuelle : ℚ
  pensionBruteMensuelle : ℚ
  pensionNetteMensuelle : ℚ
  minimumGaranti : ℚ
  minimumGarantiApplique : Bool
  nbiIntegre : Bool
  pointsNBIIntegres : ℚ

/-- `calculerPension` (prime-de-feu variant): the source invokes
`calculerMajorationPrimeFeu` with five positional arguments, so
`trimestresTotal || trimestresLiquidables` lands in the
`trimestresBonificationSPP` parameter slot, `trimestresTotal` stays
undefined and `trimestresRequis` takes its default value 172; the
embedding mirrors that call exactly. -/
def calculerPension (donnees : DonneesPension) : ResultatPension :=
  let traitement := calculerTraitementIndiciaire donnees.indiceBrut donnees.pointsNBIIntegres
  let tauxLiquidationBrut := calculerTauxLiquidationBrut donnees.trimestresLiquidables donnees.trimestresRequis
  let trimestresDecote := calculerTrimestresDecote donnees.dateNaissance donnees.dateDepart
    donnees.trimestresAssurance donnees.trimestresRequis
  let coefficientDecote := calculerCoefficientDecote trimestresDecote
  let tauxLiquidationNet := calculerTauxLiquidationNet tauxLiquidationBrut coefficientDecote
  let pensionBrute := calculerPensionBrute traitement.annuel tauxLiquidationNet
  let majorationPrimeFeu := calculerMajorationPrimeFeu traitement.annuel tauxLiquidationNet
    donnees.droitMajorationPrimeFeu
    (some (jsOr donnees.trimestresSPP donnees.trimestresLiquidables))
    (jsOr donnees.trimestresTotal donnees.trimestresLiquidables)
    none 172
  let pensionBruteTotaleMensuelle := pensionBrute.mensuel + majorationPrimeFeu.mensuelle
  let minimumGaranti := calculerMinimumGaranti donnees.trimestresLiquidables donnees.trimestresRequis
  let pensionBruteMensuelleFinale :=
    if pensionBruteTotaleMensuelle < minimumGaranti then minimumGaranti
    else pensionBruteTotaleMensuelle
  { traitementIndiciaireAnnuel := traitement.annuel
    traitementIndicaireMensuel := traitement.mensuel
    tauxLiquidationBrut := round2 tauxLiquidationBrut
    coefficientDecote := round4 coefficientDecote
    trimestresDecote := trimestresDecote
    tauxLiquidationNet := round2 tauxLiquidationNet
    pensionBaseMensuelle := round2 pensionBrute.mensuel
    pensionBaseAnnuelle := round2 pensionBrute.annuel
    majorationPrimeFeu := majorationPrimeFeu
    pensionBruteAnnuelle := round2 (pensionBruteMensuelleFinale * 12)
    pensionBruteMensuelle := round2 pensionBruteMensuelleFinale
    pensionNetteMensuelle := calculerPensionNette pensionBruteMensuelleFinale
    minimumGaranti := round2 minimumGaranti
    minimumGarantiApplique :=
      if pensionBruteTotaleMensuelle < minimumGaranti then true else false
    nbiIntegre := traitement.nbiIntegre
    pointsNBIIntegres := traitement.pointsNBI }

/-! ## JS number semantics for the unguarded division (claim about
`calculerMinimumGaranti`) -/

/-- A JS `number` restricted to the values reachable in
`calculerMinimumGaranti`: an exact rational, the two infinities, or
`NaN` (JS doubles behave exactly like rationals on these inputs except
at the division by zero). -/
inductive JSVal where
  | num (q : ℚ)
  | inf
  | neginf
  | nan
deriving DecidableEq, Repr

/-- JS division: `a / 0` gives `Infinity`, `-Infinity` or `NaN`. -/
def jsDiv : JSVal → JSVal → JSVal
  | JSVal.num a, JSVal.num b =>
    if b = 0 then
      if 0 < a then JSVal.inf else if a < 0 then JSVal.neginf else JSVal.nan
    else JSVal.num (a / b)
  | _, _ => JSVal.nan

/-- JS `Math.min` (NaN-propagating). -/
def jsMin : JSVal → JSVal → JSVal
  | JSVal.nan, _ => JSVal.nan
  | _, JSVal.nan => JSVal.nan
  | JSVal.num a, JSVal.num b => JSVal.num (min a b)
  | JSVal.inf, x => x
  | x, JSVal.inf => x
  | JSVal.neginf, _ => JSVal.neginf
  | _, JSVal.neginf => JSVal.neginf

/-- JS multiplication restricted to one finite factor. -/
def jsMulNum (a : ℚ) : JSVal → JSVal
  | JSVal.num b => JSVal.num (a * b)
  | JSVal.inf => if 0 < a then JSVal.inf else if a < 0 then JSVal.neginf else JSVal.nan
  | JSVal.neginf => if 0 < a then JSVal.neginf else if a < 0 then JSVal.inf else JSVal.nan
  | JSVal.nan => JSVal.nan

/-- JS `Math.round(x * 100) / 100` (NaN and infinities propagate). -/
def jsRound2 : JSVal → JSVal
  | JSVal.num q => JSVal.num (round2 q)
  | x => x

/-- `calculerMinimumGaranti` under JS number semantics: the source
performs `trimestresLiquidables / trimestresRequis` with no guard on the
denominator. -/
def calculerMinimumGarantiJS (trimestresLiquidables trimestresRequis : JSVal) : JSVal :=
  jsRound2 (jsMulNum MONTANT_MENSUEL_2026
    (jsMin (jsDiv trimestresLiquidables trimestresRequis) (JSVal.num 1)))

/-! ## NBI module (`modules/nbi.js`) -/

/-- Result of `verifierEligibiliteNBI` (motif abbreviated). -/
structure EligibiliteNBI where
  eligible : Bool
  motif : String
deriving DecidableEq, Repr

/-- `verifierEligibiliteNBI`: 12-month minimum, mirrored as
`!dureeMoisNBI || dureeMoisNBI < dureeMinMois`. -/
def verifierEligibiliteNBI (dureeMoisNBI : ℚ) : EligibiliteNBI :=
  if dureeMoisNBI = 0 ∨ dureeMoisNBI < 12 then
    ⟨false, "Duree de perception insuffisante"⟩
  else
    ⟨true, ""⟩

/-- `calculerMoyennePondereeNBI`: full points from 15 years of
perception (`NBI.DUREE_INTEGRATION_COMPLETE`), otherwise prorated by
months held over total service months, capped at 1. -/
def calculerMoyennePondereeNBI (pointsNBI dureeMoisNBI dureeServicesTotal : ℚ) : ℚ :=
  if pointsNBI = 0 ∨ dureeMoisNBI = 0 ∨ dureeServicesTotal = 0 then 0
  else if (15 : ℚ) ≤ dureeMoisNBI / 12 then pointsNBI
  else round2 (pointsNBI * min (dureeMoisNBI / (dureeServicesTotal * 3)) 1)

/-- Result of `calculerSupplementNBI`. -/
structure SupplementNBI where
  mensuel : ℚ
  annuel : ℚ
deriving DecidableEq, Repr

/-- `calculerSupplementNBI`. -/
def calculerSupplementNBI (moyennePondereeNBI tauxLiquidation : ℚ) : SupplementNBI :=
  if moyennePondereeNBI = 0 ∨ moyennePondereeNBI ≤ 0 then ⟨0, 0⟩
  else if tauxLiquidation = 0 ∨ tauxLiquidation ≤ 0 then ⟨0, 0⟩
  else
    ⟨round2 (moyennePondereeNBI * VALEUR_ANNUELLE * (tauxLiquidation / 100) / 12),
     round2 (moyennePondereeNBI * VALEUR_ANNUELLE * (tauxLiquidation / 100))⟩

/-- `DonneesNBI` input record. -/
structure DonneesNBI where
  pointsNBI : ℚ
  dureeMoisNBI : ℚ
  dureeServicesTotal : ℚ
  tauxLiquidation : ℚ

/-- `ResultatNBI`. -/
structure ResultatNBI where
  eligible : Bool
  pointsNBI : ℚ
  dureeMoisNBI : ℚ
  dureeAnneesNBI : ℚ
  moyennePonderee : ℚ
  supplementMensuel : ℚ
  supplementAnnuel : ℚ
  motifIneligibilite : String
deriving DecidableEq, Repr

/-- `calculerNBI`: the complete NBI supplement computation. -/
def calculerNBI (donnees : DonneesNBI) : ResultatNBI :=
  let e := verifierEligibiliteNBI donnees.dureeMoisNBI
  if e.eligible then
    let moyennePonderee := calculerMoyennePondereeNBI donnees.pointsNBI
      donnees.dureeMoisNBI donnees.dureeServicesTotal
    let supplement := calculerSupplementNBI moyennePonderee donnees.tauxLiquidation
    ⟨true, donnees.pointsNBI, donnees.dureeMoisNBI,
      round2 (donnees.dureeMoisNBI / 12), moyennePonderee,
      supplement.mensuel, supplement.annuel, ""⟩
  else
    ⟨false, donnees.pointsNBI, donnees.dureeMoisNBI,
      donnees.dureeMoisNBI / 12, 0, 0, 0, e.motif⟩

/-- The NBI result shape built by the orchestrator (`src/js/app.js`,
`effectuerCalculs`, step 7): the `ResultatNBI` fields plus the
`integreTIB` flag.  (On the ineligible path the source leaves
`integreTIB` undefined, modelled here as `false`.) -/
structure ResultatNBIApp where
  eligible : Bool
  integreTIB : Bool
  pointsNBI : ℚ
  dureeMoisNBI : ℚ
  dureeAnneesNBI : ℚ
  moyennePonderee : ℚ
  supplementMensuel : ℚ
  supplementAnnuel : ℚ
  motifIneligibilite : String
deriving DecidableEq, Repr

/-- `src/js/app.js` (`effectuerCalculs`, step 3): the NBI points are
passed to the pension computation for integration into the base salary
exactly when the perception reached 15 years
(`pointsNBIIntegres = nbiIntegrable ? pointsNBI : 0`). -/
def pointsNBIIntegresApp (dureeNBIAnnees pointsNBI : ℚ) : ℚ :=
  if 15 ≤ dureeNBIAnnees then pointsNBI else 0

/-- `src/js/app.js` (`effectuerCalculs`, step 7): at 15 or more years
of perception the orchestrator bypasses `calculerNBI` and emits a zero
separate supplement with `integreTIB = true`; otherwise it calls
`calculerNBI` (with the duration converted to months) and tags the
result with `integreTIB = false`. -/
def calculerNBIApp (pointsNBI dureeNBIAnnees dureeServicesTotal tauxLiquidation : ℚ) :
    ResultatNBIApp :=
  if 15 ≤ dureeNBIAnnees then
    ⟨true, true, pointsNBI, dureeNBIAnnees * 12, dureeNBIAnnees, pointsNBI, 0, 0, ""⟩
  else
    let r := calculerNBI ⟨pointsNBI, dureeNBIAnnees * 12, dureeServicesTotal, tauxLiquidation⟩
    ⟨r.eligible, false, r.pointsNBI, r.dureeMoisNBI, r.dureeAnneesNBI, r.moyennePonderee,
     r.supplementMensuel, r.supplementAnnuel, r.motifIneligibilite⟩

/-! ## Duration module (`modules/duree.js`) -/

/-- Kernel-computable ceiling on rationals (equal to `Int.ceil`, see
`ratCeil_eq_ceil`). -/
def ratCeil (q : ℚ) : Int := -ratFloor (-q)

theorem ratCeil_eq_ceil (q : ℚ) : ratCeil q = ⌈q⌉ := by
  unfold ratCeil
  rw [ratFloor_eq_floor, Int.floor_neg, neg_neg]

/-- `DonneesServices` input record of `calculerDurees` (the two dates
may be `null`). -/
structure DonneesServices where
  dateEntreeSPP : Option SimDate
  dateDepart : Option SimDate
  quotite : ℚ
  trimestresAutresRegimes : ℚ
  anneesSPV : ℚ
  enfantsAvant2004 : ℚ
  servicesMilitaires : String
  trimestresServicesMilitaires : ℚ

/-- `calculerTrimestresServicesEffectifs`: defensive zero on a null
date or a departure not after the hire date, otherwise
`floor(quartersBetween * quotite)`. -/
def calculerTrimestresServicesEffectifs (dateEntree dateFin : Option SimDate)
    (quotite : ℚ) : ℚ :=
  match dateEntree, dateFin with
  | some e, some f =>
    if f ≤ e then 0
    else (ratFloor ((calculerTrimestresEntreDates e f : ℚ) * quotite) : ℚ)
  | _, _ => 0

/-- `calculerBonificationCinquieme`: `floor(actifs / 5)` capped at 20
(`BONIFICATIONS.CINQUIEME_ACTIF.enabled` is `true`). -/
def calculerBonificationCinquieme (trimestresServicesActifs : ℚ) : ℚ :=
  min ((ratFloor (trimestresServicesActifs * (1/5)) : ℚ)) 20

/-- `calculerBonificationEnfants`: 4 quarters per pre-2004 child. -/
def calculerBonificationEnfants (nombreEnfants : ℚ) : ℚ :=
  if nombreEnfants = 0 ∨ nombreEnfants ≤ 0 then 0 else nombreEnfants * 4

/-- `getMajorationSPV` (`config/parametres.js`): ascending threshold
scan, the highest threshold met wins. -/
def getMajorationSPV (anneesSPV : ℚ) : ℚ :=
  if 25 ≤ anneesSPV then 3
  else if 20 ≤ anneesSPV then 2
  else if 10 ≤ anneesSPV then 1
  else 0

/-- `verifierConditionServicesActifs` (17 years = 68 quarters). -/
def verifierConditionServicesActifs (trimestresServicesActifs : ℚ) : Bool :=
  if 68 ≤ trimestresServicesActifs then true else false

/-- `verifierConditionDureePension` (2 years = 8 quarters). -/
def verifierConditionDureePension (trimestresServices : ℚ) : Bool :=
  if 8 ≤ trimestresServices then true else false

/-- `ResultatDuree` snapshot. -/
structure ResultatDuree where
  trimestresServicesEffectifs : ℚ
  trimestresBonificationCinquieme : ℚ
  trimestresBonificationEnfants : ℚ
  trimestresMajorationSPV : ℚ
  trimestresServicesMilitaires : ℚ
  trimestresBonificationMilitaire : ℚ
  totalServicesActifs : ℚ
  trimestresLiquidables : ℚ
  trimestresAutresRegimes : ℚ
  trimestresAssuranceTotale : ℚ
  trimestresRequis : ℚ
  ecartTauxPlein : ℚ
  conditionServicesActifs : Bool
  conditionDureePension : Bool
  servicesMilitaires : String
deriving DecidableEq, Repr

/-- `calculerDurees`: the complete duration aggregation. -/
def calculerDurees (donnees : DonneesServices) (anneeNaissance : Int) : ResultatDuree :=
  let trimestresServicesEffectifs := calculerTrimestresServicesEffectifs
    donnees.dateEntreeSPP donnees.dateDepart donnees.quotite
  let trimestresBonificationCinquieme := calculerBonificationCinquieme trimestresServicesEffectifs
  let trimestresBonificationEnfants := calculerBonificationEnfants donnees.enfantsAvant2004
  let trimestresMajorationSPV := getMajorationSPV donnees.anneesSPV
  let trimServicesMilitaires :=
    if donnees.servicesMilitaires = "aucun" then 0
    else donnees.trimestresServicesMilitaires
  let trimestresBonificationMilitaire := calculerBonificationCinquieme trimServicesMilitaires
  let totalServicesActifs := trimestresServicesEffectifs + trimServicesMilitaires
  let trimestresLiquidables := trimestresServicesEffectifs +
    trimestresBonificationCinquieme + trimestresBonificationEnfants +
    trimestresMajorationSPV + trimServicesMilitaires + trimestresBonificationMilitaire
  let trimestresAssuranceTotale := trimestresLiquidables + donnees.trimestresAutresRegimes
  let trimestresRequis := getDureeAssuranceRequise anneeNaissance
  ⟨trimestresServicesEffectifs, trimestresBonificationCinquieme,
   trimestresBonificationEnfants, trimestresMajorationSPV,
   trimServicesMilitaires, trimestresBonificationMilitaire,
   totalServicesActifs, trimestresLiquidables,
   donnees.trimestresAutresRegimes, trimestresAssuranceTotale,
   trimestresRequis, trimestresAssuranceTotale - trimestresRequis,
   verifierConditionServicesActifs totalServicesActifs,
   verifierConditionDureePension totalServicesActifs,
   donnees.servicesMilitaires⟩

/-! ## Departure scenarios (`modules/ages.js`) -/

/-- `DonneesDepart` input record of the scenario generator (fed by the
orchestrator with non-null dates). -/
structure DonneesDepart where
  dateNaissance : SimDate
  dateEntreeSPP : SimDate
  quotite : ℚ
  trimestresAutresRegimes : ℚ
  anneesSPV : ℚ
  enfantsAvant2004 : ℚ
  servicesMilitaires : String
  trimestresServicesMilitaires : ℚ

/-- The `DonneesServices` object literal each `calculerDurees` call site
in `modules/ages.js` rebuilds from a `DonneesDepart` and a target
departure date. -/
def servicesInput (donnees : DonneesDepart) (dateDepart : SimDate) : DonneesServices :=
  ⟨some donnees.dateEntreeSPP, some dateDepart, donnees.quotite,
   donnees.trimestresAutresRegimes, donnees.anneesSPV,
   donnees.enfantsAvant2004, donnees.servicesMilitaires,
   donnees.trimestresServicesMilitaires⟩

/-- Result of `verifierEligibiliteAgeAnticipe` (motif abbreviated). -/
structure EligibiliteAnticipe where
  eligible : Bool
  dateEligibilite : SimDate
  motif : String
deriving DecidableEq, Repr

/-- `verifierEligibiliteAgeAnticipe`: the 17-year (68-quarter)
active-service condition at the opening date, with the projected
attainment date in the negative case. -/
def verifierEligibiliteAgeAnticipe (donnees : DonneesDepart) : EligibiliteAnticipe :=
  let dateOuverture := calculerDateOuvertureDroits donnees.dateNaissance
  let trimestresADateOuverture :=
    calculerTrimestresEntreDates donnees.dateEntreeSPP dateOuverture
  let totalServicesActifs :=
    (trimestresADateOuverture : ℚ) + donnees.trimestresServicesMilitaires
  if 68 ≤ totalServicesActifs then
    ⟨true, dateOuverture, "Condition de 17 ans de services actifs remplie"⟩
  else
    let trimestresRestants := 68 - donnees.trimestresServicesMilitaires
    let anneesRestantes := max 0 (ratCeil (trimestresRestants / 4))
    ⟨false, addMonths donnees.dateEntreeSPP (12 * anneesRestantes),
      "17 ans de services actifs non atteints"⟩

/-- `ResultatDateTauxPlein`. -/
structure ResultatDateTauxPlein where
  date : SimDate
  atteintParDuree : Bool
  atteintParAge : Bool
  trimestresManquants : ℚ
deriving DecidableEq, Repr

/-- The shared fall-through tail of `calculerDateTauxPlein`: the
full-rate date is the decote-cancellation date itself and the residual
shortfall at that date is reported. -/
def dateTauxPleinParAge (donnees : DonneesDepart) : ResultatDateTauxPlein :=
  let anneeNaissance := donnees.dateNaissance.year
  let trimestresRequis := getDureeAssuranceRequise anneeNaissance
  let dateAnnulationDecote := calculerDateAnnulationDecote donnees.dateNaissance
  let resultatAnnulation := calculerDurees (servicesInput donnees dateAnnulationDecote) anneeNaissance
  ⟨dateAnnulationDecote, false, true,
    max 0 (trimestresRequis - resultatAnnulation.trimestresAssuranceTotale)⟩

/-- `calculerDateTauxPlein` (analytic variant of `modules/ages.js`):
duration at the opening date, an analytic estimate of the missing
months, one refinement pass, both bounded by the decote-cancellation
date, else the shared fall-through tail. -/
def calculerDateTauxPlein (donnees : DonneesDepart) : ResultatDateTauxPlein :=
  let anneeNaissance := donnees.dateNaissance.year
  let trimestresRequis := getDureeAssuranceRequise anneeNaissance
  let dateOuverture := calculerDateOuvertureDroits donnees.dateNaissance
  let dateAnnulationDecote := calculerDateAnnulationDecote donnees.dateNaissance
  let resultatOuverture := calculerDurees (servicesInput donnees dateOuverture) anneeNaissance
  if trimestresRequis ≤ resultatOuverture.trimestresAssuranceTotale then
    ⟨dateOuverture, true, false, 0⟩
  else
    let trimestresManquantsOuverture :=
      trimestresRequis - resultatOuverture.trimestresAssuranceTotale
    let quotite := if donnees.quotite = 0 then 1 else donnees.quotite
    let moisNecessaires := ratCeil (trimestresManquantsOuverture / quotite * 3)
    let dateTauxPleinEstimee := addMonths dateOuverture moisNecessaires
    if dateTauxPleinEstimee ≤ dateAnnulationDecote then
      let resultatEstime := calculerDurees (servicesInput donnees dateTauxPleinEstimee) anneeNaissance
      if trimestresRequis ≤ resultatEstime.trimestresAssuranceTotale then
        ⟨dateTauxPleinEstimee, true, false, 0⟩
      else
        let trimestresEncoreManquants :=
          trimestresRequis - resultatEstime.trimestresAssuranceTotale
        let moisSupplementaires := ratCeil (trimestresEncoreManquants / quotite * 3)
        let dateTauxPleinEstimee2 := addMonths dateTauxPleinEstimee moisSupplementaires
        if dateTauxPleinEstimee2 ≤ dateAnnulationDecote then
          ⟨dateTauxPleinEstimee2, true, false, 0⟩
        else
          dateTauxPleinParAge donnees
    else
      dateTauxPleinParAge donnees

/-- `ScenarioDepart` (presentation-only `description` strings omitted;
the scenario-2-only tags are carried by `ResultatDateTauxPlein`). -/
structure ScenarioDepart where
  typeScenario : String
  date : SimDate
  age : Int
  trimestresLiquidables : ℚ
  trimestresAssurance : ℚ
  tauxLiquidation : ℚ
  decote : Bool
  surcote : Bool
  trimestresSurcote : ℚ
deriving DecidableEq, Repr

/-- The three scenarios pushed (in this order) into the array returned
by `genererScenariosDepart`. -/
structure ScenariosDepart where
  anticipe : ScenarioDepart
  tauxPlein : ScenarioDepart
  limite : ScenarioDepart
deriving DecidableEq, Repr

/-- `genererScenariosDepart`: earliest departure, full-rate departure
and age-limit departure. -/
def genererScenariosDepart (donnees : DonneesDepart) : ScenariosDepart :=
  let anneeNaissance := donnees.dateNaissance.year
  let trimestresRequis := getDureeAssuranceRequise anneeNaissance
  let eligibilite := verifierEligibiliteAgeAnticipe donnees
  let dateAuPlusTot :=
    if eligibilite.eligible then calculerDateOuvertureDroits donnees.dateNaissance
    else eligibilite.dateEligibilite
  let resultatAuPlusTot := calculerDurees (servicesInput donnees dateAuPlusTot) anneeNaissance
  let tauxAuPlusTot := min 75 (resultatAuPlusTot.trimestresLiquidables / trimestresRequis * 75)
  let decoteAuPlusTot := resultatAuPlusTot.trimestresAssuranceTotale < trimestresRequis
  let resultatDateTauxPlein := calculerDateTauxPlein donnees
  let dateTauxPlein := resultatDateTauxPlein.date
  let resultatTauxPlein := calculerDurees (servicesInput donnees dateTauxPlein) anneeNaissance
  let tauxTauxPlein := min 75 (resultatTauxPlein.trimestresLiquidables / trimestresRequis * 75)
  let dateLimite := calculerDateLimite donnees.dateNaissance
  let resultatLimite := calculerDurees (servicesInput donnees dateLimite) anneeNaissance
  let tauxLimite := min 75 (resultatLimite.trimestresLiquidables / trimestresRequis * 75)
  let surcoteLimite := trimestresRequis < resultatLimite.trimestresAssuranceTotale ∧
    dateTauxPlein < dateLimite
  let trimestresSurcoteLimite :=
    if surcoteLimite then max 0 (resultatLimite.trimestresAssuranceTotale - trimestresRequis)
    else 0
  ⟨⟨"anticipe", dateAuPlusTot, calculerAge donnees.dateNaissance dateAuPlusTot,
     resultatAuPlusTot.trimestresLiquidables, resultatAuPlusTot.trimestresAssuranceTotale,
     tauxAuPlusTot, (if decoteAuPlusTot then true else false), false, 0⟩,
   ⟨"taux_plein", dateTauxPlein, calculerAge donnees.dateNaissance dateTauxPlein,
     resultatTauxPlein.trimestresLiquidables, resultatTauxPlein.trimestresAssuranceTotale,
     tauxTauxPlein, false, false, 0⟩,
   ⟨"limite", dateLimite, calculerAge donnees.dateNaissance dateLimite,
     resultatLimite.trimestresLiquidables, resultatLimite.trimestresAssuranceTotale,
     tauxLimite, false, (if surcoteLimite then true else false), trimestresSurcoteLimite⟩⟩

/-! ## General lemmas about the embedding -/

theorem SimDate.le_def (a b : SimDate) : a ≤ b ↔ a.key ≤ b.key := Iff.rfl

theorem SimDate.lt_def (a b : SimDate) : a < b ↔ a.key < b.key := Iff.rfl

theorem calculerTrimestresSurcote_nonneg (a b : SimDate) :
    0 ≤ calculerTrimestresSurcote a b := by
  unfold calculerTrimestresSurcote
  split
  · exact le_refl 0
  · exact calculerTrimestresEntreDates_nonneg _ _

theorem calculerTauxSurcote_nonneg (t : ℚ) : 0 ≤ calculerTauxSurcote t := by
  unfold calculerTauxSurcote SURCOTE_PAR_TRIMESTRE
  split
  · exact le_refl 0
  · rename_i h
    push_neg at h
    exact mul_nonneg (le_of_lt h) (by norm_num)

/-! ## Claim theorems -/

/-- C5: for non-negative liquidable quarters, the gross liquidation rate
is at most 75 and equals 75 exactly when liquidable quarters reach the
required quarters, provided the required quarters are positive; for
non-positive required quarters the rate is 0. -/
theorem taux_liquidation_cap (liq req : ℚ) (_hliq : 0 ≤ liq) :
    (0 < req →
      calculerTauxLiquidationBrut liq req ≤ 75 ∧
      (calculerTauxLiquidationBrut liq req = 75 ↔ req ≤ liq)) ∧
    (req ≤ 0 → calculerTauxLiquidationBrut liq req = 0) := by
  unfold calculerTauxLiquidationBrut TAUX_PLEIN
  constructor
  · intro hreq
    rw [if_neg (by push_neg; constructor <;> linarith)]
    refine ⟨min_le_right _ _, ?_⟩
    rw [min_eq_right_iff]
    constructor
    · intro h75
      have h1 : (1 : ℚ) ≤ liq / req := by linarith
      exact (one_le_div hreq).mp h1
    · intro hle
      have h1 : (1 : ℚ) ≤ liq / req := (one_le_div hreq).mpr hle
      linarith
  · intro hreq
    rw [if_pos (Or.inr hreq)]

/-- Witness for `taux_liquidation_cap` at `liq = req = 172`. -/
theorem taux_liquidation_cap_witness :
    (0 : ℚ) ≤ 172 ∧
    ((0 < (172 : ℚ) →
      calculerTauxLiquidationBrut 172 172 ≤ 75 ∧
      (calculerTauxLiquidationBrut 172 172 = 75 ↔ (172 : ℚ) ≤ 172)) ∧
     ((172 : ℚ) ≤ 0 → calculerTauxLiquidationBrut 172 172 = 0)) :=
  ⟨by norm_num, taux_liquidation_cap 172 172 (by norm_num)⟩

/-- C10: the complete surcote computation always returns a majoration
coefficient at least 1 and a non-negative surcote rate, so applying it
multiplicatively to a non-negative pension never decreases the amount
before the final rounding. -/
theorem surcote_coefficient_ge_one (donnees : DonneesSurcote) :
    1 ≤ (calculerSurcote donnees).coefficientMajoration ∧
    0 ≤ (calculerSurcote donnees).tauxSurcote ∧
    ∀ pension : ℚ, 0 ≤ pension →
      pension ≤ pension * (calculerSurcote donnees).coefficientMajoration := by
  have hmain : 1 ≤ (calculerSurcote donnees).coefficientMajoration ∧
      0 ≤ (calculerSurcote donnees).tauxSurcote := by
    simp only [calculerSurcote]
    split
    · dsimp only
      constructor
      · apply round4_ge_one
        unfold calculerCoefficientSurcote
        have h0 : (0 : ℚ) ≤ calculerTauxSurcote
            ((calculerTrimestresSurcote
              (calculerDateDebutSurcote donnees.dateNaissance donnees.dateTauxPlein)
              donnees.dateDepart : Int) : ℚ) :=
          calculerTauxSurcote_nonneg _
        linarith [div_nonneg h0 (by norm_num : (0 : ℚ) ≤ 100)]
      · exact round2_nonneg _ (calculerTauxSurcote_nonneg _)
    · exact ⟨le_refl 1, le_refl 0⟩
  exact ⟨hmain.1, hmain.2, fun p hp => le_mul_of_one_le_right hp hmain.1⟩

/-- Witness for `surcote_coefficient_ge_one` at a concrete record and
pension 1000. -/
theorem surcote_coefficient_ge_one_witness :
    (0 : ℚ) ≤ 1000 ∧
    1000 ≤ 1000 * (calculerSurcote
      ⟨⟨1960, 0, 1⟩, ⟨2024, 0, 1⟩, 180, 167, ⟨2022, 0, 1⟩⟩).coefficientMajoration :=
  ⟨by norm_num,
   (surcote_coefficient_ge_one ⟨⟨1960, 0, 1⟩, ⟨2024, 0, 1⟩, 180, 167, ⟨2022, 0, 1⟩⟩).2.2
     1000 (by norm_num)⟩

/-- C7: the surcote start date is the later of the full-rate date and
the sedentary-legal-age date; the guard of `calculerTrimestresSurcote`
is subsumed by the clamping of `quartersBetween`, so the surcote
quarters are exactly the quarters between the start date and the
departure; the rate is linear (1.25 per quarter, no cap); the
coefficient is `1 + rate/100`; and the application to a pension is
multiplicative. -/
theorem surcote_computation_spec (naissance dateTauxPlein debut depart : SimDate)
    (t pension coefficient : ℚ) (hdebut : debut.Valid) (hdepart : depart.Valid)
    (ht : 0 ≤ t) :
    (calculerDateDebutSurcote naissance dateTauxPlein).key =
      max dateTauxPlein.key
        (dateAtteindreAgeAvecMois naissance (getAgeLegalSedentaire naissance).ans
          (getAgeLegalSedentaire naissance).mois).key ∧
    calculerTrimestresSurcote debut depart = calculerTrimestresEntreDates debut depart ∧
    calculerTauxSurcote t = t * (5/4) ∧
    calculerCoefficientSurcote t = 1 + t / 100 ∧
    appliquerSurcote pension coefficient = round2 (pension * coefficient) := by
  refine ⟨?_, ?_, ?_, rfl, rfl⟩
  · simp only [calculerDateDebutSurcote]
    split
    · split
      · rename_i hlt
        rw [SimDate.lt_def] at hlt
        exact (max_eq_left (le_of_lt hlt)).symm
      · rename_i hlt
        rw [SimDate.lt_def] at hlt
        exact (max_eq_right (not_lt.mp hlt)).symm
    · rename_i hm
      push_neg at hm
      have hk : (dateAtteindreAgeAvecMois naissance (getAgeLegalSedentaire naissance).ans
          (getAgeLegalSedentaire naissance).mois).key =
          (addMonths naissance (12 * (getAgeLegalSedentaire naissance).ans)).key := by
        simp only [dateAtteindreAgeAvecMois, addMonths_key, hm]
        ring
      rw [hk]
      split
      · rename_i hlt
        rw [SimDate.lt_def] at hlt
        exact (max_eq_left (le_of_lt hlt)).symm
      · rename_i hlt
        rw [SimDate.lt_def] at hlt
        exact (max_eq_right (not_lt.mp hlt)).symm
  · unfold calculerTrimestresSurcote
    split
    · rename_i hle
      rw [SimDate.le_def] at hle
      unfold calculerTrimestresEntreDates
      rw [monthsBetween_eq_zero debut depart hdebut hdepart hle]
      omega
    · rfl
  · unfold calculerTauxSurcote SURCOTE_PAR_TRIMESTRE
    split
    · rename_i hle
      have : t = 0 := le_antisymm hle ht
      rw [this]
      norm_num
    · rfl

/-- Witness for `surcote_computation_spec` at concrete dates and
values. -/
theorem surcote_computation_spec_witness :
    ((⟨2022, 0, 1⟩ : SimDate).Valid ∧ (⟨2024, 0, 1⟩ : SimDate).Valid ∧ (0 : ℚ) ≤ 4) ∧
    ((calculerDateDebutSurcote ⟨1960, 0, 1⟩ ⟨2025, 0, 1⟩).key =
      max (⟨2025, 0, 1⟩ : SimDate).key
        (dateAtteindreAgeAvecMois ⟨1960, 0, 1⟩ (getAgeLegalSedentaire ⟨1960, 0, 1⟩).ans
          (getAgeLegalSedentaire ⟨1960, 0, 1⟩).mois).key ∧
     calculerTrimestresSurcote ⟨2022, 0, 1⟩ ⟨2024, 0, 1⟩ =
       calculerTrimestresEntreDates ⟨2022, 0, 1⟩ ⟨2024, 0, 1⟩ ∧
     calculerTauxSurcote 4 = 4 * (5/4) ∧
     calculerCoefficientSurcote 4 = 1 + 4 / 100 ∧
     appliquerSurcote 2000 (21/20) = round2 (2000 * (21/20))) :=
  ⟨⟨by decide, by decide, by norm_num⟩,
   surcote_computation_spec ⟨1960, 0, 1⟩ ⟨2025, 0, 1⟩ ⟨2022, 0, 1⟩ ⟨2024, 0, 1⟩
     4 2000 (21/20) (by decide) (by decide) (by norm_num)⟩

/-- C1 counterexample: an agent of the 1961-10 cohort (sedentary legal
age 62 years and 3 months) departing at age 62 years 1 month, with
enough insured quarters, is granted the surcote by the code although the
departure age is below the sedentary legal age expressed in years and
months: the eligibility check only compares whole years. -/
theorem surcote_eligibility_counterexample :
    (verifierEligibiliteSurcote ⟨1961, 9, 1⟩ ⟨2023, 10, 1⟩ 180 168).eligible = true ∧
    ((⟨2023, 10, 1⟩ : SimDate) < dateAtteindreAgeAvecMois ⟨1961, 9, 1⟩
      (getAgeLegalSedentaire ⟨1961, 9, 1⟩).ans (getAgeLegalSedentaire ⟨1961, 9, 1⟩).mois) ∧
    (168 : ℚ) ≤ 180 := by
  refine ⟨by decide, by decide, by norm_num⟩

/-- C1 amended: eligibility holds if and only if the integer age at
departure reaches the `ans` component of the cohort's sedentary legal
age (the month offset being ignored) and the insured quarters reach the
required quarters; when either fails, the complete surcote result is
ineligible with zero quarters, zero rate and coefficient 1. -/
theorem surcote_eligibility_amended (b d dtp : SimDate) (tA tR : ℚ) :
    ((verifierEligibiliteSurcote b d tA tR).eligible = true ↔
      ((getAgeLegalSedentaire b).ans ≤ calculerAge b d ∧ tR ≤ tA)) ∧
    ((verifierEligibiliteSurcote b d tA tR).eligible = false →
      calculerSurcote ⟨b, d, tA, tR, dtp⟩ =
        ⟨false, 0, 0, 1, (verifierEligibiliteSurcote b d tA tR).motif⟩) := by
  constructor
  · simp only [verifierEligibiliteSurcote]
    split_ifs with h1 h2
    · exact iff_of_false (by simp) (fun hc => absurd hc.1 (not_le.mpr h1))
    · exact iff_of_false (by simp) (fun hc => absurd hc.2 (not_le.mpr h2))
    · exact iff_of_true rfl ⟨not_lt.mp h1, not_lt.mp h2⟩
  · intro h
    simp only [calculerSurcote, h, Bool.false_eq_true, if_false]

/-- Witness for `surcote_eligibility_amended` at a concrete ineligible
input. -/
theorem surcote_eligibility_amended_witness :
    (verifierEligibiliteSurcote ⟨1970, 0, 1⟩ ⟨2020, 0, 1⟩ 100 172).eligible = false ∧
    calculerSurcote ⟨⟨1970, 0, 1⟩, ⟨2020, 0, 1⟩, 100, 172, ⟨2030, 0, 1⟩⟩ =
      ⟨false, 0, 0, 1,
        (verifierEligibiliteSurcote ⟨1970, 0, 1⟩ ⟨2020, 0, 1⟩ 100 172).motif⟩ :=
  ⟨by decide,
   (surcote_eligibility_amended ⟨1970, 0, 1⟩ ⟨2020, 0, 1⟩ ⟨2030, 0, 1⟩ 100 172).2
     (by decide)⟩

/-- C4 counterexample: for the 1965 cohort the sedentary cancellation
date is at 63 years 3 months (2028-04-01), yet an agent departing on
2027-06-01 at integer age 62 with a 72-quarter shortfall gets 0
reduction quarters from the code, while the claimed formula
`min(min(duration shortfall, quarters to the sedentary cancellation
date)), 20)` gives 3: the fast exit uses the fixed age constant 62. -/
theorem decote_quarters_counterexample :
    calculerTrimestresDecote ⟨1965, 0, 1⟩ ⟨2027, 5, 1⟩ 100 172 = 0 ∧
    calculerTrimestresEntreDates ⟨2027, 5, 1⟩ (calculerDateAnnulationDecote ⟨1965, 0, 1⟩) = 3 ∧
    min (min (max 0 ((172 : ℚ) - 100)) ((3 : Int) : ℚ)) 20 = 3 ∧
    ((⟨2027, 5, 1⟩ : SimDate) < calculerDateAnnulationDecote ⟨1965, 0, 1⟩) := by
  refine ⟨?_, by decide, ?_, by decide⟩
  · simp only [calculerTrimestresDecote]
    rw [if_pos (by decide)]
  · norm_num [min_def, max_def]

/-- C4 amended: the reduction quarters always lie in [0, 20]; they are 0
whenever the departure is on or after the sedentary cancellation date,
and also whenever the integer age at departure has reached the fixed
constant 62 (`AGES.ANNULATION_DECOTE`), even below the cohort's
sedentary cancellation date; below age 62 they equal the min formula
capped at 20; and for non-negative quarter counts the reduction
coefficient is `max(1 - quarters * 0.0125, 0.75)`, hence in
[0.75, 1]. -/
theorem decote_quarters_amended (b d : SimDate) (tA tR q : ℚ)
    (hb : b.Valid) (hd : d.Valid) (hq : 0 ≤ q) :
    (0 ≤ calculerTrimestresDecote b d tA tR ∧ calculerTrimestresDecote b d tA tR ≤ 20) ∧
    (calculerDateAnnulationDecote b ≤ d → calculerTrimestresDecote b d tA tR = 0) ∧
    (calculerAge b d < AGE_ANNULATION_DECOTE →
      calculerTrimestresDecote b d tA tR =
        min (min (max 0 (tR - tA))
          ((calculerTrimestresEntreDates d (calculerDateAnnulationDecote b) : ℚ))) 20) ∧
    (AGE_ANNULATION_DECOTE ≤ calculerAge b d → calculerTrimestresDecote b d tA tR = 0) ∧
    (calculerCoefficientDecote q = max (1 - q * (125/10000)) (3/4) ∧
      3/4 ≤ calculerCoefficientDecote q ∧ calculerCoefficientDecote q ≤ 1) := by
  have hqB : (0 : ℚ) ≤ ((calculerTrimestresEntreDates d (calculerDateAnnulationDecote b) : Int) : ℚ) := by
    exact_mod_cast calculerTrimestresEntreDates_nonneg _ _
  refine ⟨?_, ?_, ?_, ?_, ?_⟩
  · unfold calculerTrimestresDecote
    split
    · norm_num
    · constructor
      · exact le_min (le_min (le_max_left 0 _) hqB) (by norm_num)
      · exact min_le_right _ _
  · intro hle
    rw [SimDate.le_def] at hle
    unfold calculerTrimestresDecote
    split
    · rfl
    · have hz : calculerTrimestresEntreDates d (calculerDateAnnulationDecote b) = 0 := by
        unfold calculerTrimestresEntreDates
        rw [monthsBetween_eq_zero d (calculerDateAnnulationDecote b) hd
          (addMonths_valid _ _ (addMonths_valid _ _ hb)) hle]
        omega
      rw [hz]
      rw [min_eq_right (by push_cast; exact le_max_left 0 _ : ((0 : Int) : ℚ) ≤ max 0 (tR - tA))]
      rw [min_eq_left (by push_cast; norm_num : ((0 : Int) : ℚ) ≤ 20)]
      push_cast
      rfl
  · intro hage
    unfold calculerTrimestresDecote
    rw [if_neg (not_le.mpr hage)]
  · intro hage
    unfold calculerTrimestresDecote
    rw [if_pos hage]
  · unfold calculerCoefficientDecote DECOTE_PAR_TRIMESTRE
    have hform : (if q ≤ 0 then (1 : ℚ)
        else max (1 - q * (5/4/100)) (3/4)) = max (1 - q * (125/10000)) (3/4) := by
      split
      · rename_i h0
        have : q = 0 := le_antisymm h0 hq
        rw [this]
        norm_num
      · norm_num
    rw [hform]
    refine ⟨rfl, le_max_right _ _, ?_⟩
    apply max_le
    · nlinarith
    · norm_num

/-- Witness for `decote_quarters_amended` at a concrete input below the
cancellation age. -/
theorem decote_quarters_witness :
    (0 ≤ calculerTrimestresDecote ⟨1960, 0, 1⟩ ⟨2019, 0, 1⟩ 150 167 ∧
      calculerTrimestresDecote ⟨1960, 0, 1⟩ ⟨2019, 0, 1⟩ 150 167 ≤ 20) ∧
    calculerTrimestresDecote ⟨1960, 0, 1⟩ ⟨2019, 0, 1⟩ 150 167 =
      min (min (max 0 ((167 : ℚ) - 150))
        ((calculerTrimestresEntreDates ⟨2019, 0, 1⟩
          (calculerDateAnnulationDecote ⟨1960, 0, 1⟩) : ℚ))) 20 ∧
    calculerCoefficientDecote 4 = max (1 - 4 * (125/10000)) (3/4) :=
  ⟨(decote_quarters_amended ⟨1960, 0, 1⟩ ⟨2019, 0, 1⟩ 150 167 4 (by decide) (by decide)
      (by norm_num)).1,
   (decote_quarters_amended ⟨1960, 0, 1⟩ ⟨2019, 0, 1⟩ 150 167 4 (by decide) (by decide)
      (by norm_num)).2.2.1 (by decide),
   (decote_quarters_amended ⟨1960, 0, 1⟩ ⟨2019, 0, 1⟩ 150 167 4 (by decide) (by decide)
      (by norm_num)).2.2.2.2.1⟩

/-- C3 counterexample: bonus points held exactly 15 years (180 months)
are not turned into a zero separate supplement with an integration
flag: `calculerNBI` pays the full unprorated supplement (886.10 per
year for 20 points at liquidation rate 75) and its result carries no
integration field. -/
theorem nbi_integration_counterexample :
    (calculerNBI ⟨20, 180, 100, 75⟩).eligible = true ∧
    (calculerNBI ⟨20, 180, 100, 75⟩).moyennePonderee = 20 ∧
    (calculerNBI ⟨20, 180, 100, 75⟩).supplementAnnuel = 8861/10 ∧
    ((8861/10 : ℚ) ≠ 0) := by
  have helig : verifierEligibiliteNBI 180 = ⟨true, ""⟩ := by
    unfold verifierEligibiliteNBI
    rw [if_neg (by norm_num)]
  have hmoy : calculerMoyennePondereeNBI 20 180 100 = 20 := by
    unfold calculerMoyennePondereeNBI
    rw [if_neg (by norm_num), if_pos (by norm_num)]
  have hann : round2 ((20 : ℚ) * VALEUR_ANNUELLE * (75/100)) = ((88610 : Int) : ℚ) / 100 :=
    round2_eval 88610 (by unfold VALEUR_ANNUELLE VALEUR_MENSUELLE; norm_num)
      (by unfold VALEUR_ANNUELLE VALEUR_MENSUELLE; norm_num)
  have hsupp : (calculerSupplementNBI 20 75).annuel = 8861/10 := by
    unfold calculerSupplementNBI
    rw [if_neg (by norm_num), if_neg (by norm_num)]
    show round2 ((20 : ℚ) * VALEUR_ANNUELLE * (75/100)) = 8861/10
    rw [hann]
    norm_num
  refine ⟨?_, ?_, ?_, by norm_num⟩
  · simp [calculerNBI, helig]
  · simp [calculerNBI, helig, hmoy]
  · simp [calculerNBI, helig, hmoy, hsupp]

/-- C3 amended: fewer than 12 months of perception gives the
ineligible record with zero supplement.  At 15 or more years, the
integration is implemented by the orchestrator (`app.js`), which
bypasses `calculerNBI`, emits a zero separate supplement with
`integreTIB = true`, and feeds the points into the base salary of the
pension computation (flag `nbiIntegre`); the NBI module function
`calculerNBI` itself, called at 180 or more months, uses the full
point count and pays the full supplement
`points * pointValue * rate/100` with no integration flag.  Between 12
months and 15 years the point count is prorated by months held over
total service months, capped at 1, and the supplement is the rounded
prorated points times the annual point value times the liquidation
rate (annual; divided by 12 for the monthly amount). -/
theorem nbi_supplement_amended (points mois total taux indice duree : ℚ)
    (hp : 0 < points) (htot : 0 < total) (htaux : 0 < taux) :
    (mois < 12 →
      calculerNBI ⟨points, mois, total, taux⟩ =
        ⟨false, points, mois, mois / 12, 0, 0, 0,
          "Duree de perception insuffisante"⟩) ∧
    (15 ≤ duree →
      calculerNBIApp points duree total taux =
        ⟨true, true, points, duree * 12, duree, points, 0, 0, ""⟩ ∧
      (calculerTraitementIndiciaire indice (pointsNBIIntegresApp duree points)).annuel =
        round2 (indice * VALEUR_ANNUELLE + points * VALEUR_ANNUELLE) ∧
      (calculerTraitementIndiciaire indice (pointsNBIIntegresApp duree points)).nbiIntegre =
        true) ∧
    (180 ≤ mois →
      (calculerNBI ⟨points, mois, total, taux⟩).moyennePonderee = points ∧
      (calculerNBI ⟨points, mois, total, taux⟩).supplementAnnuel =
        round2 (points * VALEUR_ANNUELLE * (taux / 100)) ∧
      (calculerNBI ⟨points, mois, total, taux⟩).supplementMensuel =
        round2 (points * VALEUR_ANNUELLE * (taux / 100) / 12)) ∧
    (12 ≤ mois → mois < 180 →
      (calculerNBI ⟨points, mois, total, taux⟩).moyennePonderee =
        round2 (points * min (mois / (total * 3)) 1) ∧
      (calculerNBI ⟨points, mois, total, taux⟩).supplementAnnuel =
        round2 (round2 (points * min (mois / (total * 3)) 1) *
          VALEUR_ANNUELLE * (taux / 100)) ∧
      (calculerNBI ⟨points, mois, total, taux⟩).supplementMensuel =
        round2 (round2 (points * min (mois / (total * 3)) 1) *
          VALEUR_ANNUELLE * (taux / 100) / 12)) := by
  refine ⟨?_, ?_, ?_, ?_⟩
  · intro h
    have he : verifierEligibiliteNBI mois = ⟨false, "Duree de perception insuffisante"⟩ := by
      unfold verifierEligibiliteNBI
      rw [if_pos (Or.inr h)]
    simp [calculerNBI, he]
  · intro h
    refine ⟨?_, ?_, ?_⟩
    · unfold calculerNBIApp
      rw [if_pos h]
    · unfold pointsNBIIntegresApp
      rw [if_pos h]
      rfl
    · unfold pointsNBIIntegresApp
      rw [if_pos h]
      show (if 0 < points then true else false) = true
      rw [if_pos hp]
  · intro h
    have he : verifierEligibiliteNBI mois = ⟨true, ""⟩ := by
      unfold verifierEligibiliteNBI
      rw [if_neg (by push_neg; constructor <;> linarith)]
    have hmoy : calculerMoyennePondereeNBI points mois total = points := by
      unfold calculerMoyennePondereeNBI
      rw [if_neg (by push_neg; exact ⟨ne_of_gt hp, by linarith, ne_of_gt htot⟩)]
      rw [if_pos (by rw [le_div_iff₀ (by norm_num : (0:ℚ) < 12)]; linarith)]
    have hsupp : calculerSupplementNBI points taux =
        ⟨round2 (points * VALEUR_ANNUELLE * (taux / 100) / 12),
         round2 (points * VALEUR_ANNUELLE * (taux / 100))⟩ := by
      unfold calculerSupplementNBI
      rw [if_neg (by push_neg; exact ⟨ne_of_gt hp, hp⟩)]
      rw [if_neg (by push_neg; exact ⟨ne_of_gt htaux, htaux⟩)]
    simp [calculerNBI, he, hmoy, hsupp]
  · intro h1 h2
    have he : verifierEligibiliteNBI mois = ⟨true, ""⟩ := by
      unfold verifierEligibiliteNBI
      rw [if_neg (by push_neg; constructor <;> linarith)]
    have hmoy : calculerMoyennePondereeNBI points mois total =
        round2 (points * min (mois / (total * 3)) 1) := by
      unfold calculerMoyennePondereeNBI
      rw [if_neg (by push_neg; exact ⟨ne_of_gt hp, by linarith, ne_of_gt htot⟩)]
      rw [if_neg (by rw [not_le, div_lt_iff₀ (by norm_num : (0:ℚ) < 12)]; linarith)]
    by_cases hz : round2 (points * min (mois / (total * 3)) 1) = 0
    · have hsupp : calculerSupplementNBI (calculerMoyennePondereeNBI points mois total)
          taux = ⟨0, 0⟩ := by
        rw [hmoy, hz]
        unfold calculerSupplementNBI
        rw [if_pos (Or.inl rfl)]
      have hra : round2 ((0 : ℚ) * VALEUR_ANNUELLE * (taux / 100)) = 0 := by
        rw [show (0 : ℚ) * VALEUR_ANNUELLE * (taux / 100) = 0 by ring]
        rw [round2_eval 0 (by norm_num) (by norm_num)]
        norm_num
      have hrm : round2 ((0 : ℚ) * VALEUR_ANNUELLE * (taux / 100) / 12) = 0 := by
        rw [show (0 : ℚ) * VALEUR_ANNUELLE * (taux / 100) / 12 = 0 by ring]
        rw [round2_eval 0 (by norm_num) (by norm_num)]
        norm_num
      refine ⟨by simp [calculerNBI, he, hmoy], ?_, ?_⟩
      · rw [hz, hra]
        simp [calculerNBI, he, hsupp]
      · rw [hz, hrm]
        simp [calculerNBI, he, hsupp]
    · have hnn : 0 ≤ points * min (mois / (total * 3)) 1 :=
        mul_nonneg hp.le
          (le_min (div_nonneg (by linarith) (by positivity)) (by norm_num))
      have hpos : 0 < round2 (points * min (mois / (total * 3)) 1) :=
        lt_of_le_of_ne (round2_nonneg _ hnn) (Ne.symm hz)
      have hsupp : calculerSupplementNBI (calculerMoyennePondereeNBI points mois total)
          taux =
          ⟨round2 (round2 (points * min (mois / (total * 3)) 1) *
             VALEUR_ANNUELLE * (taux / 100) / 12),
           round2 (round2 (points * min (mois / (total * 3)) 1) *
             VALEUR_ANNUELLE * (taux / 100))⟩ := by
        rw [hmoy]
        unfold calculerSupplementNBI
        rw [if_neg (by push_neg; exact ⟨hz, hpos⟩)]
        rw [if_neg (by push_neg; exact ⟨ne_of_gt htaux, htaux⟩)]
      exact ⟨by simp [calculerNBI, he, hmoy],
        by simp [calculerNBI, he, hsupp],
        by simp [calculerNBI, he, hsupp]⟩

/-- Witness for `nbi_supplement_amended`: 30 points held 20 years
(orchestrator integration and the module-level full supplement). -/
theorem nbi_supplement_witness :
    (0 : ℚ) < 30 ∧ (0 : ℚ) < 120 ∧ (0 : ℚ) < 60 ∧ (15 : ℚ) ≤ 20 ∧ (180 : ℚ) ≤ 240 ∧
    (calculerNBIApp 30 20 120 60 =
      ⟨true, true, 30, 20 * 12, 20, 30, 0, 0, ""⟩ ∧
     (calculerTraitementIndiciaire 500 (pointsNBIIntegresApp 20 30)).nbiIntegre = true) ∧
    (calculerNBI ⟨30, 240, 120, 60⟩).supplementAnnuel =
      round2 (30 * VALEUR_ANNUELLE * (60 / 100)) :=
  ⟨by norm_num, by norm_num, by norm_num, by norm_num, by norm_num,
   ⟨((nbi_supplement_amended 30 240 120 60 500 20 (by norm_num) (by norm_num)
       (by norm_num)).2.1 (by norm_num)).1,
    ((nbi_supplement_amended 30 240 120 60 500 20 (by norm_num) (by norm_num)
       (by norm_num)).2.1 (by norm_num)).2.2⟩,
   ((nbi_supplement_amended 30 240 120 60 500 20 (by norm_num) (by norm_num)
       (by norm_num)).2.2.1 (by norm_num)).2.1⟩

/-- C8 counterexample: with a null hire date but one pre-2004 child,
the duration snapshot is not all-zero: the children bonus stays 4 and
the required quarters stay 172. -/
theorem durees_null_counterexample :
    (calculerDurees ⟨none, some ⟨2020, 0, 1⟩, 1, 0, 0, 1, "aucun", 0⟩
      1970).trimestresServicesEffectifs = 0 ∧
    (calculerDurees ⟨none, some ⟨2020, 0, 1⟩, 1, 0, 0, 1, "aucun", 0⟩
      1970).trimestresBonificationEnfants = 4 ∧
    (calculerDurees ⟨none, some ⟨2020, 0, 1⟩, 1, 0, 0, 1, "aucun", 0⟩
      1970).trimestresRequis = 172 ∧
    ((4 : ℚ) ≠ 0 ∧ (172 : ℚ) ≠ 0) := by
  refine ⟨?_, ?_, ?_, by norm_num, by norm_num⟩
  · simp [calculerDurees, calculerTrimestresServicesEffectifs]
  · simp [calculerDurees, calculerBonificationEnfants]
  · simp [calculerDurees, getDureeAssuranceRequise]

/-- C8 amended: on a null hire date, a null departure date, or a
departure not after the hire date, the effective-service quarters and
their fifth bonus are 0 (and the computation is total), while the
fields fed by the other inputs (children bonus, volunteer majoration,
military quarters and their bonus, other-scheme quarters, required
quarters) keep their usual values. -/
theorem durees_null_amended (donnees : DonneesServices) (annee : Int)
    (h : donnees.dateEntreeSPP = none ∨ donnees.dateDepart = none ∨
      ∃ e f, donnees.dateEntreeSPP = some e ∧ donnees.dateDepart = some f ∧ f ≤ e) :
    (calculerDurees donnees annee).trimestresServicesEffectifs = 0 ∧
    (calculerDurees donnees annee).trimestresBonificationCinquieme = 0 ∧
    (calculerDurees donnees annee).trimestresLiquidables =
      (calculerDurees donnees annee).trimestresBonificationEnfants +
      (calculerDurees donnees annee).trimestresMajorationSPV +
      (calculerDurees donnees annee).trimestresServicesMilitaires +
      (calculerDurees donnees annee).trimestresBonificationMilitaire ∧
    (calculerDurees donnees annee).trimestresAssuranceTotale =
      (calculerDurees donnees annee).trimestresLiquidables +
        donnees.trimestresAutresRegimes := by
  have h0 : calculerTrimestresServicesEffectifs donnees.dateEntreeSPP
      donnees.dateDepart donnees.quotite = 0 := by
    rcases h with h | h | ⟨e, f, he, hf, hle⟩
    · unfold calculerTrimestresServicesEffectifs
      rw [h]
    · unfold calculerTrimestresServicesEffectifs
      rw [h]
      cases donnees.dateEntreeSPP <;> rfl
    · unfold calculerTrimestresServicesEffectifs
      rw [he, hf]
      dsimp only
      rw [if_pos hle]
  have h5 : calculerBonificationCinquieme 0 = 0 := by
    unfold calculerBonificationCinquieme
    rw [ratFloor_eval 0 (by norm_num) (by norm_num)]
    push_cast
    exact min_eq_left (by norm_num)
  refine ⟨?_, ?_, ?_, ?_⟩ <;> (simp only [calculerDurees, h0, h5]; try ring)

/-- Witness for `durees_null_amended` at a departure before the hire
date. -/
theorem durees_null_amended_witness :
    (calculerDurees ⟨some ⟨2020, 0, 1⟩, some ⟨2019, 0, 1⟩, 1, 5, 0, 2, "aucun", 0⟩
      1970).trimestresServicesEffectifs = 0 ∧
    (calculerDurees ⟨some ⟨2020, 0, 1⟩, some ⟨2019, 0, 1⟩, 1, 5, 0, 2, "aucun", 0⟩
      1970).trimestresBonificationCinquieme = 0 ∧
    (calculerDurees ⟨some ⟨2020, 0, 1⟩, some ⟨2019, 0, 1⟩, 1, 5, 0, 2, "aucun", 0⟩
      1970).trimestresLiquidables =
      (calculerDurees ⟨some ⟨2020, 0, 1⟩, some ⟨2019, 0, 1⟩, 1, 5, 0, 2, "aucun", 0⟩
        1970).trimestresBonificationEnfants +
      (calculerDurees ⟨some ⟨2020, 0, 1⟩, some ⟨2019, 0, 1⟩, 1, 5, 0, 2, "aucun", 0⟩
        1970).trimestresMajorationSPV +
      (calculerDurees ⟨some ⟨2020, 0, 1⟩, some ⟨2019, 0, 1⟩, 1, 5, 0, 2, "aucun", 0⟩
        1970).trimestresServicesMilitaires +
      (calculerDurees ⟨some ⟨2020, 0, 1⟩, some ⟨2019, 0, 1⟩, 1, 5, 0, 2, "aucun", 0⟩
        1970).trimestresBonificationMilitaire ∧
    (calculerDurees ⟨some ⟨2020, 0, 1⟩, some ⟨2019, 0, 1⟩, 1, 5, 0, 2, "aucun", 0⟩
      1970).trimestresAssuranceTotale =
      (calculerDurees ⟨some ⟨2020, 0, 1⟩, some ⟨2019, 0, 1⟩, 1, 5, 0, 2, "aucun", 0⟩
        1970).trimestresLiquidables + 5 :=
  durees_null_amended ⟨some ⟨2020, 0, 1⟩, some ⟨2019, 0, 1⟩, 1, 5, 0, 2, "aucun", 0⟩
    1970 (Or.inr (Or.inr ⟨⟨2020, 0, 1⟩, ⟨2019, 0, 1⟩, rfl, rfl, by decide⟩))

/-- C9: the gross-liquidation-rate division is guarded (0 at zero
required quarters), but the guaranteed-minimum division is not: under
JS number semantics, `calculerMinimumGaranti(0, 0)` is `NaN` (0/0) and
`calculerMinimumGaranti(100, 0)` is the full amount 1367.51 (via
`min(Infinity, 1) = 1`), not 0. -/
theorem minimum_garanti_division_bug :
    calculerTauxLiquidationBrut 100 0 = 0 ∧
    calculerMinimumGarantiJS (JSVal.num 0) (JSVal.num 0) = JSVal.nan ∧
    calculerMinimumGarantiJS (JSVal.num 100) (JSVal.num 0) = JSVal.num (136751/100) := by
  refine ⟨?_, ?_, ?_⟩
  · unfold calculerTauxLiquidationBrut
    rw [if_pos (Or.inl rfl)]
  · norm_num [calculerMinimumGarantiJS, jsDiv, jsMin, jsMulNum, jsRound2]
  · have hr : round2 (MONTANT_MENSUEL_2026) = ((136751 : Int) : ℚ) / 100 :=
      round2_eval 136751 (by unfold MONTANT_MENSUEL_2026; norm_num)
        (by unfold MONTANT_MENSUEL_2026; norm_num)
    norm_num [calculerMinimumGarantiJS, jsDiv, jsMin, jsMulNum, jsRound2, hr]

/-- C2: inside `calculerPension` the five-argument call shifts
`trimestresTotal` into the `trimestresBonificationSPP` slot, so with 100
SPP quarters out of 150 liquidable quarters (100 plus its own fifth
bonus 20 being far below the 172 required quarters, which the claim says
forces proration by 100/150) the hazard majoration is not prorated at
all: the spurious sum 100 + 150 = 250 triggers the full exemption and
`trimestresTotal` is undefined at the callee. -/
theorem primeFeu_pension_proration_bug :
    ((100 : ℚ) + (ratFloor ((100 : ℚ) * (1/5)) : ℚ) < 172) ∧
    ((100 : ℚ) < 150) ∧
    (calculerPension ⟨400, 150, 150, 172, ⟨1970, 0, 1⟩, ⟨2033, 5, 1⟩, 0, true,
      some 100, some 150⟩).majorationPrimeFeu.proratisee = false ∧
    (calculerPension ⟨400, 150, 150, 172, ⟨1970, 0, 1⟩, ⟨2033, 5, 1⟩, 0, true,
      some 100, some 150⟩).majorationPrimeFeu.tauxProratisation = 100 := by
  have hflo : ratFloor ((100 : ℚ) * (1/5)) = 20 := ratFloor_eval 20 (by norm_num) (by norm_num)
  have hj1 : jsOr (some 100) 150 = 100 := by unfold jsOr; norm_num
  have hj2 : jsOr (some 150) 150 = 150 := by unfold jsOr; norm_num
  have hcall : ∀ A B : ℚ, calculerMajorationPrimeFeu A B true (some 100) 150 none 172 =
      ⟨round2 (A * (TAUX_PRIME_FEU / 100) * (B / 100)),
       round2 (A * (TAUX_PRIME_FEU / 100) * (B / 100) / 12), false, round2 100⟩ := by
    intro A B
    unfold calculerMajorationPrimeFeu
    rw [if_pos rfl]
    rw [if_neg (fun hc => hc.1 (by unfold optVal; norm_num))]
  have hround : round2 (100 : ℚ) = 100 := by
    rw [round2_eval 10000 (by norm_num) (by norm_num)]
    norm_num
  refine ⟨by rw [hflo]; push_cast; norm_num, by norm_num, ?_, ?_⟩
  · simp only [calculerPension, hj1, hj2, hcall]
  · simp only [calculerPension, hj1, hj2, hcall]
    exact hround

/-! ## Scenario ordering (C6) -/

theorem le_addMonths_key (d : SimDate) (n : Int) (hn : 0 ≤ n) :
    d.key ≤ (addMonths d n).key := by
  rw [addMonths_key]
  omega

theorem ratCeil_mul3_nonneg (m q : ℚ) (hm : 0 < m) (hq : 0 < q) :
    0 ≤ ratCeil (m / q * 3) := by
  rw [ratCeil_eq_ceil]
  apply Int.ceil_nonneg
  positivity

/-- Both legal-age tables resolve to their first row (57 years resp. 62
years, no month offset) for birth dates between 1900-01-01 and
1961-08-31. -/
theorem ages_legaux_pre1961 (b : SimDate) (hb : b.Valid)
    (h1 : SimDate.key ⟨1900, 0, 1⟩ ≤ b.key)
    (h2 : b.key < SimDate.key ⟨1961, 8, 1⟩) :
    getAgeLegalActif b = ⟨57, 0, 684⟩ ∧ getAgeLegalSedentaire b = ⟨62, 0, 744⟩ := by
  obtain ⟨hm1, hm2, hd1, hd2⟩ := hb
  have hcondA : ((⟨1900, 0, 1⟩ : SimDate) ≤ b ∧ b ≤ ⟨1966, 7, 31⟩) := by
    constructor <;> rw [SimDate.le_def] <;>
      simp only [SimDate.key] at h1 h2 ⊢ <;> omega
  have hcondS : ((⟨1900, 0, 1⟩ : SimDate) ≤ b ∧ b ≤ ⟨1961, 7, 31⟩) := by
    constructor <;> rw [SimDate.le_def] <;>
      simp only [SimDate.key] at h1 h2 ⊢ <;> omega
  constructor
  · have hexp : chercherTranche AGE_LEGAL_ACTIF b = some ⟨57, 0, 684⟩ := by
      simp only [AGE_LEGAL_ACTIF, chercherTranche, Option.getD]
      rw [if_pos hcondA]
      norm_num
    unfold getAgeLegalActif
    rw [hexp]
    rfl
  · have hexp : chercherTranche AGE_LEGAL_SEDENTAIRE b = some ⟨62, 0, 744⟩ := by
      simp only [AGE_LEGAL_SEDENTAIRE, chercherTranche, Option.getD]
      rw [if_pos hcondS]
      norm_num
    unfold getAgeLegalSedentaire
    rw [hexp]
    rfl

/-- C6 counterexample: an agent born 1970-01-01 hired 2020-06-01 has the
age-limit date 2032-01-01 strictly before the full-rate date 2034-01-01
(the sedentary cancellation age 64 exceeds the 62-year activity limit),
which itself is strictly before the earliest-departure date 2037-06-01
(the 17-year condition is met only then). -/
theorem scenario_ordering_counterexample :
    (genererScenariosDepart ⟨⟨1970, 0, 1⟩, ⟨2020, 5, 1⟩, 1, 0, 0, 0, "aucun", 0⟩).limite.date <
      (genererScenariosDepart ⟨⟨1970, 0, 1⟩, ⟨2020, 5, 1⟩, 1, 0, 0, 0, "aucun", 0⟩).tauxPlein.date ∧
    (genererScenariosDepart ⟨⟨1970, 0, 1⟩, ⟨2020, 5, 1⟩, 1, 0, 0, 0, "aucun", 0⟩).tauxPlein.date <
      (genererScenariosDepart ⟨⟨1970, 0, 1⟩, ⟨2020, 5, 1⟩, 1, 0, 0, 0, "aucun", 0⟩).anticipe.date := by
  have hq31 : calculerTrimestresEntreDates ⟨2020, 5, 1⟩
      (calculerDateOuvertureDroits ⟨1970, 0, 1⟩) = 31 := by decide
  have he : verifierEligibiliteAgeAnticipe ⟨⟨1970, 0, 1⟩, ⟨2020, 5, 1⟩, 1, 0, 0, 0, "aucun", 0⟩ =
      ⟨false, ⟨2037, 5, 1⟩, "17 ans de services actifs non atteints"⟩ := by
    unfold verifierEligibiliteAgeAnticipe
    dsimp only
    rw [hq31]
    rw [if_neg (by norm_num)]
    have hc : ratCeil ((68 - (0:ℚ)) / 4) = 17 := by
      rw [ratCeil_eq_ceil]
      rw [show ((68 - (0:ℚ)) / 4) = 17 by norm_num]
      exact_mod_cast Int.ceil_intCast 17
    rw [hc]
    rfl
  have heff : calculerTrimestresServicesEffectifs (some ⟨2020, 5, 1⟩)
      (some (calculerDateOuvertureDroits ⟨1970, 0, 1⟩)) 1 = 31 := by
    unfold calculerTrimestresServicesEffectifs
    dsimp only
    rw [if_neg (by decide), hq31]
    rw [show (((31 : Int) : ℚ) * 1) = ((31 : Int) : ℚ) by push_cast; ring]
    rw [ratFloor_eval 31 (by push_cast; norm_num) (by push_cast; norm_num)]
    norm_num
  have h5a : calculerBonificationCinquieme 31 = 6 := by
    unfold calculerBonificationCinquieme
    rw [ratFloor_eval 6 (by norm_num) (by norm_num)]
    push_cast
    exact min_eq_left (by norm_num)
  have h5z : calculerBonificationCinquieme 0 = 0 := by
    unfold calculerBonificationCinquieme
    rw [ratFloor_eval 0 (by norm_num) (by norm_num)]
    push_cast
    exact min_eq_left (by norm_num)
  have hd1 : (calculerDurees (servicesInput ⟨⟨1970, 0, 1⟩, ⟨2020, 5, 1⟩, 1, 0, 0, 0, "aucun", 0⟩
      (calculerDateOuvertureDroits ⟨1970, 0, 1⟩)) 1970).trimestresAssuranceTotale = 37 := by
    simp [calculerDurees, servicesInput, heff, h5a, h5z, calculerBonificationEnfants]
    norm_num [getMajorationSPV]
  have htp : (calculerDateTauxPlein ⟨⟨1970, 0, 1⟩, ⟨2020, 5, 1⟩, 1, 0, 0, 0, "aucun", 0⟩).date =
      ⟨2034, 0, 1⟩ := by
    simp only [calculerDateTauxPlein]
    rw [if_neg (by rw [hd1]; norm_num [getDureeAssuranceRequise])]
    rw [if_neg ?hguard]
    case hguard =>
      rw [hd1]
      rw [show (getDureeAssuranceRequise 1970 - 37) = 135 by norm_num [getDureeAssuranceRequise]]
      rw [show ((if (1 : ℚ) = 0 then 1 else 1) : ℚ) = 1 by norm_num]
      rw [show ratCeil ((135 : ℚ) / 1 * 3) = 405 by
        rw [ratCeil_eq_ceil, show ((135 : ℚ) / 1 * 3) = 405 by norm_num]
        exact_mod_cast Int.ceil_intCast 405]
      decide
    unfold dateTauxPleinParAge
    dsimp only
    decide
  refine ⟨?_, ?_⟩ <;>
    simp only [genererScenariosDepart, he, htp] <;>
    decide

/-- C6 amended: for agents born between 1900-01-01 and 1961-08-31 (so
the sedentary cancellation age, 62, coincides with the activity age
limit), with a positive work fraction, who satisfy the 17-year
active-service condition at the opening date, the three scenario dates
are ordered: earliest ≤ full-rate ≤ age-limit. -/
theorem scenario_ordering_amended (donnees : DonneesDepart)
    (hb : donnees.dateNaissance.Valid)
    (h1 : SimDate.key ⟨1900, 0, 1⟩ ≤ donnees.dateNaissance.key)
    (h2 : donnees.dateNaissance.key < SimDate.key ⟨1961, 8, 1⟩)
    (hq : 0 < donnees.quotite)
    (helig : (verifierEligibiliteAgeAnticipe donnees).eligible = true) :
    (genererScenariosDepart donnees).anticipe.date ≤
      (genererScenariosDepart donnees).tauxPlein.date ∧
    (genererScenariosDepart donnees).tauxPlein.date ≤
      (genererScenariosDepart donnees).limite.date := by
  obtain ⟨hA, hS⟩ := ages_legaux_pre1961 donnees.dateNaissance hb h1 h2
  have hOuv : (calculerDateOuvertureDroits donnees.dateNaissance).key =
      donnees.dateNaissance.key + 21888 := by
    unfold calculerDateOuvertureDroits
    rw [hA]
    simp only [dateAtteindreAgeAvecMois, addMonths_key]
    norm_num
  have hAnn : (calculerDateAnnulationDecote donnees.dateNaissance).key =
      donnees.dateNaissance.key + 23808 := by
    unfold calculerDateAnnulationDecote
    rw [hS]
    simp only [dateAtteindreAgeAvecMois, addMonths_key]
    norm_num
  have hLim : (calculerDateLimite donnees.dateNaissance).key =
      donnees.dateNaissance.key + 23808 := by
    unfold calculerDateLimite dateAtteindreAge AGE_LIMITE_ACTIVITE
    rw [addMonths_key]
    norm_num
  have hqz : (if donnees.quotite = 0 then (1 : ℚ) else donnees.quotite) = donnees.quotite :=
    if_neg (ne_of_gt hq)
  have htail : (calculerDateOuvertureDroits donnees.dateNaissance).key ≤
      (dateTauxPleinParAge donnees).date.key ∧
      (dateTauxPleinParAge donnees).date.key ≤
        (calculerDateAnnulationDecote donnees.dateNaissance).key := by
    unfold dateTauxPleinParAge
    dsimp only
    constructor
    · omega
    · exact le_refl _
  have hTP : (calculerDateOuvertureDroits donnees.dateNaissance).key ≤
      (calculerDateTauxPlein donnees).date.key ∧
      (calculerDateTauxPlein donnees).date.key ≤
        (calculerDateAnnulationDecote donnees.dateNaissance).key := by
    simp only [calculerDateTauxPlein, hqz]
    split
    · try dsimp only
      constructor
      · exact le_refl _
      · omega
    · rename_i hc1
      split
      · rename_i hc2
        split
        · rename_i hc3
          try dsimp only
          rw [SimDate.le_def] at hc2
          refine ⟨?_, hc2⟩
          have hm1 := sub_pos.mpr (not_le.mp hc1)
          exact le_addMonths_key _ _ (ratCeil_mul3_nonneg _ donnees.quotite hm1 hq)
        · rename_i hc3
          split
          · rename_i hc4
            try dsimp only
            rw [SimDate.le_def] at hc4
            refine ⟨?_, hc4⟩
            have hm1 := sub_pos.mpr (not_le.mp hc1)
            have hm2 := sub_pos.mpr (not_le.mp hc3)
            have hn1 := ratCeil_mul3_nonneg _ donnees.quotite hm1 hq
            have hn2 := ratCeil_mul3_nonneg _ donnees.quotite hm2 hq
            rw [addMonths_key, addMonths_key]
            omega
          · exact htail
      · exact htail
  have hs1 : (genererScenariosDepart donnees).anticipe.date =
      calculerDateOuvertureDroits donnees.dateNaissance := by
    simp only [genererScenariosDepart]
    rw [if_pos helig]
  have hs2 : (genererScenariosDepart donnees).tauxPlein.date =
      (calculerDateTauxPlein donnees).date := rfl
  have hs3 : (genererScenariosDepart donnees).limite.date =
      calculerDateLimite donnees.dateNaissance := rfl
  constructor
  · rw [SimDate.le_def, hs1, hs2]
    exact hTP.1
  · rw [SimDate.le_def, hs2, hs3]
    omega

/-- Witness for `scenario_ordering_amended`: an agent born 1960-01-01
hired 2000-01-01 full time meets the 17-year condition exactly at the
opening date. -/
theorem scenario_ordering_amended_witness :
    ((⟨1960, 0, 1⟩ : SimDate).Valid ∧
      SimDate.key ⟨1900, 0, 1⟩ ≤ (⟨1960, 0, 1⟩ : SimDate).key ∧
      (⟨1960, 0, 1⟩ : SimDate).key < SimDate.key ⟨1961, 8, 1⟩ ∧
      (0 : ℚ) < 1 ∧
      (verifierEligibiliteAgeAnticipe
        ⟨⟨1960, 0, 1⟩, ⟨2000, 0, 1⟩, 1, 0, 0, 0, "aucun", 0⟩).eligible = true) ∧
    ((genererScenariosDepart ⟨⟨1960, 0, 1⟩, ⟨2000, 0, 1⟩, 1, 0, 0, 0, "aucun", 0⟩).anticipe.date ≤
      (genererScenariosDepart ⟨⟨1960, 0, 1⟩, ⟨2000, 0, 1⟩, 1, 0, 0, 0, "aucun", 0⟩).tauxPlein.date ∧
     (genererScenariosDepart ⟨⟨1960, 0, 1⟩, ⟨2000, 0, 1⟩, 1, 0, 0, 0, "aucun", 0⟩).tauxPlein.date ≤
      (genererScenariosDepart ⟨⟨1960, 0, 1⟩, ⟨2000, 0, 1⟩, 1, 0, 0, 0, "aucun", 0⟩).limite.date) := by
  have helig : (verifierEligibiliteAgeAnticipe
      ⟨⟨1960, 0, 1⟩, ⟨2000, 0, 1⟩, 1, 0, 0, 0, "aucun", 0⟩).eligible = true := by
    unfold verifierEligibiliteAgeAnticipe
    dsimp only
    rw [show calculerTrimestresEntreDates ⟨2000, 0, 1⟩
      (calculerDateOuvertureDroits ⟨1960, 0, 1⟩) = 68 from by decide]
    rw [if_pos (by push_cast; norm_num)]
  exact ⟨⟨by decide, by decide, by decide, by norm_num, helig⟩,
    scenario_ordering_amended ⟨⟨1960, 0, 1⟩, ⟨2000, 0, 1⟩, 1, 0, 0, 0, "aucun", 0⟩
      (by decide) (by decide) (by decide) (by norm_num) helig⟩

end Horizon
